import Mathlib

/-!
Verification of the RKNPU driver core (rknpu_job.c, rknpu_drv.c,
rknpu_mem_simple.c) against its natural-language specification.

The embedding is shallow: each C function is translated to an executable
Lean function over explicit state.  Machine integers (`int`, `atomic_t`,
`__u32`, `__s64`) are modelled as `Int` or `Nat`; list-backed kernel
structures (`list_head` FIFOs) as Lean `List`s; hardware register writes
and wait-queue wake-ups are recorded as events so that theorems can speak
about what was programmed and who was woken.
-/

namespace RKNPU

/- Error codes (negative errno values as returned by the driver). -/
def EINVAL : Int := 22
def ENOMEM : Int := 12
def ETIMEDOUT : Int := 110

/- Constants from rknpu_job.h (the header itself is not in the tree; the
values are pinned by their use in `rknpu_job_alloc`, where
`use_core_num = (m & CORE0) + ((m & CORE1) >> 1) + ((m & CORE2) >> 2)`,
and by the rk3588 capability mask 0x7). -/
def RKNPU_MAX_CORES : Nat := 3
def RKNPU_CORE_AUTO_MASK : Nat := 0x0
def RKNPU_CORE0_MASK : Nat := 0x1
def RKNPU_CORE1_MASK : Nat := 0x2
def RKNPU_CORE2_MASK : Nat := 0x4
def RKNPU_JOB_DONE : Nat := 0x1
def RKNPU_JOB_ASYNC : Nat := 0x2

/- Job-mode flags from rknpu_ioctl.h. -/
def RKNPU_JOB_PC : Nat := 1
def RKNPU_JOB_NONBLOCK : Nat := 2
def RKNPU_JOB_PINGPONG : Nat := 4

def RKNPU_PC_DATA_EXTRA_AMOUNT : Nat := 4

/-- Hardware configuration (struct rknpu_config). -/
structure RknpuConfig where
  num_irqs : Nat
  max_submit_number : Int
  core_mask : Nat
  pc_task_number_bits : Nat
  pc_data_amount_scale : Int
  deriving Repr, DecidableEq

/-- The rk3588 configuration (rk3588_rknpu_config in rknpu_drv.c). -/
def rk3588_rknpu_config : RknpuConfig :=
  { num_irqs := 3
    max_submit_number := (2 ^ 12 : Int) - 1
    core_mask := 0x7
    pc_task_number_bits := 12
    pc_data_amount_scale := 2 }

/-- One record of struct rknpu_task (fixed-layout task descriptor). -/
structure RknpuTask where
  flags : Nat
  op_idx : Nat
  enable_mask : Nat
  int_mask : Nat
  int_clear : Nat
  int_status : Nat
  regcfg_amount : Nat
  regcfg_offset : Nat
  regcmd_addr : Nat
  deriving Repr, DecidableEq

def RknpuTask.default : RknpuTask :=
  { flags := 0, op_idx := 0, enable_mask := 0, int_mask := 0, int_clear := 0
    int_status := 0, regcfg_amount := 0, regcfg_offset := 0, regcmd_addr := 0 }

/-- struct rknpu_subcore_task: one per-core (start, count) assignment. -/
structure RknpuSubcoreTask where
  task_start : Int
  task_number : Int
  deriving Repr, DecidableEq

/-- struct rknpu_submit (the fields the job engine reads).
`task_obj` stands for the task array reached through `task_obj_addr`
(`none` models a NULL object pointer). -/
structure RknpuSubmit where
  flags : Nat
  timeout : Nat
  task_start : Int
  task_number : Int
  task_counter : Int
  core_mask : Nat
  subcore_task : List RknpuSubcoreTask
  task_obj : Option (List RknpuTask)
  deriving Repr, DecidableEq

/-- struct rknpu_job (the scheduling-relevant fields).  Counters that are
C `atomic_t` (`run_count`, `interrupt_count`, `submit_count[i]`) are `Int`,
as in the kernel.  `first_task`/`last_task` hold the resolved task indices
(`none` models the pointers still being NULL). -/
structure RknpuJob where
  use_core_num : Nat
  args : RknpuSubmit
  run_count : Int
  interrupt_count : Int
  submit_count : List Int
  flags : Nat
  ret : Int
  int_mask : List Nat
  int_status : List Nat
  irq_entry : List Bool
  first_task : Option Int
  last_task : Option Int
  deriving Repr, DecidableEq

/-- struct rknpu_subcore_data: per-core pending FIFO (job ids), running
job (id or none) and accumulated pending-task load. -/
structure RknpuSubcoreData where
  todo_list : List Nat
  job : Option Nat
  task_num : Int
  deriving Repr, DecidableEq

/-- struct rknpu_device (the job-engine-relevant fields).  Jobs live in a
store `jobs`; a job id is an index into it, standing for the C pointer. -/
structure RknpuDevice where
  config : RknpuConfig
  subcore_datas : List RknpuSubcoreData
  soft_reseting : Bool
  jobs : List RknpuJob
  deriving Repr, DecidableEq

/-- Observable effects: register-programming rounds, wake-ups,
interrupt-clear writes and deferred-cleanup scheduling. -/
inductive Event where
  | commitCore (core : Nat) (task_start task_number : Int)
  | wake (queue : Nat)
  | clearInt (core : Nat)
  | scheduleCleanup
  deriving Repr, DecidableEq

def Event.isCommit : Event → Bool
  | .commitCore _ _ _ => true
  | _ => false

def Event.isWake : Event → Bool
  | .wake _ => true
  | _ => false

/-- rknpu_wait_core_index (rknpu_job.c:29). -/
def rknpu_wait_core_index (core_mask : Nat) : Nat :=
  if core_mask = RKNPU_CORE0_MASK ∨
     core_mask = (RKNPU_CORE0_MASK ||| RKNPU_CORE1_MASK) ∨
     core_mask = (RKNPU_CORE0_MASK ||| RKNPU_CORE1_MASK ||| RKNPU_CORE2_MASK)
  then 0
  else if core_mask = RKNPU_CORE1_MASK then 1
  else if core_mask = RKNPU_CORE2_MASK then 2
  else 0

/-- rknpu_core_mask (rknpu_job.c:52). -/
def rknpu_core_mask (core_index : Nat) : Nat :=
  if core_index = 0 then RKNPU_CORE0_MASK
  else if core_index = 1 then RKNPU_CORE1_MASK
  else if core_index = 2 then RKNPU_CORE2_MASK
  else RKNPU_CORE_AUTO_MASK

/-- rknpu_get_task_number (rknpu_job.c:73).  `core_index` is a C int; the
guard rejects indices outside [0, RKNPU_MAX_CORES). -/
def rknpu_get_task_number (cfg : RknpuConfig) (job : RknpuJob)
    (core_index : Int) : Int :=
  if core_index ≥ (RKNPU_MAX_CORES : Int) ∨ core_index < 0 then 0
  else
    let idx := core_index.toNat
    if cfg.num_irqs > 1 then
      if job.use_core_num = 1 ∨ job.use_core_num = 2 then
        (job.args.subcore_task.getD idx ⟨0, 0⟩).task_number
      else if job.use_core_num = 3 then
        (job.args.subcore_task.getD (idx + 2) ⟨0, 0⟩).task_number
      else job.args.task_number
    else job.args.task_number

/-- rknpu_fuzz_status (rknpu_job.c:725): bit-group normalization of the
interrupt status register. -/
def rknpu_fuzz_status (status : Nat) : Nat :=
  let f := 0
  let f := if status &&& 0x3 ≠ 0 then f ||| 0x3 else f
  let f := if status &&& 0xc ≠ 0 then f ||| 0xc else f
  let f := if status &&& 0x30 ≠ 0 then f ||| 0x30 else f
  let f := if status &&& 0xc0 ≠ 0 then f ||| 0xc0 else f
  let f := if status &&& 0x300 ≠ 0 then f ||| 0x300 else f
  let f := if status &&& 0xc00 ≠ 0 then f ||| 0xc00 else f
  f

/-- rknpu_job_alloc (rknpu_job.c:115): per-core participation counters are
initialized to the popcount of the requested core mask; submit counters to
zero.  (The kzalloc-failure path is not modelled: allocation is assumed to
succeed.) -/
def rknpu_job_alloc (args : RknpuSubmit) : RknpuJob :=
  let n := (args.core_mask &&& RKNPU_CORE0_MASK) +
           ((args.core_mask &&& RKNPU_CORE1_MASK) >>> 1) +
           ((args.core_mask &&& RKNPU_CORE2_MASK) >>> 2)
  { use_core_num := n
    args := args
    run_count := (n : Int)
    interrupt_count := (n : Int)
    submit_count := [0, 0, 0]
    flags := 0
    ret := 0
    int_mask := [0, 0, 0]
    int_status := [0, 0, 0]
    irq_entry := [false, false, false]
    first_task := none
    last_task := none }

def RknpuSubmit.null : RknpuSubmit :=
  { flags := 0, timeout := 0, task_start := 0, task_number := 0
    task_counter := 0, core_mask := 0, subcore_task := [], task_obj := none }

def RknpuJob.null : RknpuJob := rknpu_job_alloc RknpuSubmit.null

def RknpuSubcoreData.null : RknpuSubcoreData :=
  { todo_list := [], job := none, task_num := 0 }

/-- rknpu_job_subcore_commit_pc (rknpu_job.c:322): resolves this round's
task sub-range (per-core assignment offset by `submit_count * max_submit`
and clipped to `max_submit`), programs the hardware registers for it
(recorded as a `commitCore` event) and records the resolved first/last
task indices and the expected interrupt mask on the job. -/
def rknpu_job_subcore_commit_pc (cfg : RknpuConfig) (job : RknpuJob)
    (core_index : Nat) : RknpuJob × List Event :=
  match job.args.task_obj with
  | none => ({ job with ret := -EINVAL }, [])
  | some task_mem =>
    let ts0 := job.args.task_start
    let tn0 := job.args.task_number
    let stn :=
      if cfg.num_irqs > 1 then
        if job.use_core_num = 1 ∨ job.use_core_num = 2 then
          job.args.subcore_task.getD core_index ⟨0, 0⟩
        else if job.use_core_num = 3 then
          job.args.subcore_task.getD (core_index + 2) ⟨0, 0⟩
        else ⟨ts0, tn0⟩
      else ⟨ts0, tn0⟩
    let submit_index := job.submit_count.getD core_index 0
    let max_submit := cfg.max_submit_number
    let task_start := stn.task_start + submit_index * max_submit
    let task_number := stn.task_number - submit_index * max_submit
    let task_number := if task_number > max_submit then max_submit else task_number
    let task_end := task_start + task_number - 1
    let last_task := task_mem.getD task_end.toNat RknpuTask.default
    let job := { job with
      first_task := some task_start
      last_task := some task_end
      int_mask := job.int_mask.set core_index last_task.int_mask }
    (job, [Event.commitCore core_index task_start task_number])

/-- rknpu_job_subcore_commit (rknpu_job.c:479): rejects non-PC submissions,
otherwise commits via the PC path. -/
def rknpu_job_subcore_commit (cfg : RknpuConfig) (job : RknpuJob)
    (core_index : Nat) : RknpuJob × List Event :=
  if job.args.flags &&& RKNPU_JOB_PC = 0 then ({ job with ret := -EINVAL }, [])
  else rknpu_job_subcore_commit_pc cfg job core_index

/-- rknpu_job_commit (rknpu_job.c:497): dispatches on the job's core mask
and programs each participating core; an unrecognized mask (the default
case of the C switch) programs nothing. -/
def rknpu_job_commit (cfg : RknpuConfig) (job : RknpuJob) :
    RknpuJob × List Event :=
  let m := job.args.core_mask
  if m = RKNPU_CORE0_MASK then rknpu_job_subcore_commit cfg job 0
  else if m = RKNPU_CORE1_MASK then rknpu_job_subcore_commit cfg job 1
  else if m = RKNPU_CORE2_MASK then rknpu_job_subcore_commit cfg job 2
  else if m = (RKNPU_CORE0_MASK ||| RKNPU_CORE1_MASK) then
    let (job, ev0) := rknpu_job_subcore_commit cfg job 0
    let (job, ev1) := rknpu_job_subcore_commit cfg job 1
    (job, ev0 ++ ev1)
  else if m = (RKNPU_CORE0_MASK ||| RKNPU_CORE1_MASK ||| RKNPU_CORE2_MASK) then
    let (job, ev0) := rknpu_job_subcore_commit cfg job 0
    let (job, ev1) := rknpu_job_subcore_commit cfg job 1
    let (job, ev2) := rknpu_job_subcore_commit cfg job 2
    (job, ev0 ++ ev1 ++ ev2)
  else (job, [])

/-- rknpu_job_next (rknpu_job.c:524): if the core is idle and its FIFO is
non-empty, pops the head job, makes it the core's running job, decrements
the job's run counter, and — only when that decrement reaches zero —
issues the hardware commit for the whole job. -/
def rknpu_job_next (dev : RknpuDevice) (core_index : Nat) :
    RknpuDevice × List Event :=
  if dev.soft_reseting then (dev, [])
  else
    let sd := dev.subcore_datas.getD core_index RknpuSubcoreData.null
    match sd.job, sd.todo_list with
    | some _, _ => (dev, [])
    | none, [] => (dev, [])
    | none, jid :: rest =>
      let sd := { sd with todo_list := rest, job := some jid }
      let dev := { dev with
        subcore_datas := dev.subcore_datas.set core_index sd }
      let job := dev.jobs.getD jid RknpuJob.null
      let job := { job with run_count := job.run_count - 1 }
      if job.run_count = 0 then
        let (job, ev) := rknpu_job_commit dev.config job
        ({ dev with jobs := dev.jobs.set jid job }, ev)
      else
        ({ dev with jobs := dev.jobs.set jid job }, [])

/-- rknpu_job_done (rknpu_job.c:555): advances the per-core batch counter
and re-commits the next batch if rounds remain; otherwise frees the core,
decrements the cross-core interrupt counter, and — only when that
decrement reaches zero — sets `RKNPU_JOB_DONE`, records the result, wakes
the waiter (core 0's queue for multi-core jobs) and, for async jobs,
schedules deferred cleanup; finally tries to start the next queued job. -/
def rknpu_job_done (dev : RknpuDevice) (jid : Nat) (ret : Int)
    (core_index : Nat) : RknpuDevice × List Event :=
  let cfg := dev.config
  let job := dev.jobs.getD jid RknpuJob.null
  let max_submit := cfg.max_submit_number
  let sc := job.submit_count.getD core_index 0 + 1
  let job := { job with submit_count := job.submit_count.set core_index sc }
  if sc < (rknpu_get_task_number cfg job core_index + max_submit - 1) / max_submit
  then
    let (job, ev) := rknpu_job_subcore_commit cfg job core_index
    ({ dev with jobs := dev.jobs.set jid job }, ev)
  else
    let sd := dev.subcore_datas.getD core_index RknpuSubcoreData.null
    let sd := { sd with
      job := none
      task_num := sd.task_num - rknpu_get_task_number cfg job core_index }
    let dev := { dev with
      subcore_datas := dev.subcore_datas.set core_index sd }
    let job := { job with interrupt_count := job.interrupt_count - 1 }
    let (job, ev1) :=
      if job.interrupt_count = 0 then
        let job := { job with flags := job.flags ||| RKNPU_JOB_DONE, ret := ret }
        let evA := if job.flags &&& RKNPU_JOB_ASYNC ≠ 0 then
          [Event.scheduleCleanup] else []
        let wake_queue := if job.use_core_num > 1 then 0 else core_index
        (job, evA ++ [Event.wake wake_queue])
      else (job, [])
    let dev := { dev with jobs := dev.jobs.set jid job }
    let (dev, ev2) := rknpu_job_next dev core_index
    (dev, ev1 ++ ev2)

/-- rknpu_schedule_core_index (rknpu_job.c:598): scans cores 1..n-1 and
keeps the strictly smaller load, so ties resolve to the lowest index. -/
def rknpu_schedule_core_index (dev : RknpuDevice) : Nat :=
  let load := fun i => (dev.subcore_datas.getD i RknpuSubcoreData.null).task_num
  let step := fun (acc : Nat × Int) (i : Nat) =>
    if acc.2 > load i then (i, load i) else acc
  ((((List.range (dev.config.num_irqs - 1)).map (fun j => j + 1)).foldl
    step (0, load 0))).1

/-- rknpu_job_schedule, AUTO-resolution phase (rknpu_job.c:622-628): only
a job submitted with the AUTO core mask consults the load balancer; its
mask is rewritten to the least-loaded core and its participation counters
reset to 1.  Any other mask leaves the device untouched. -/
def rknpu_job_schedule_resolve_auto (dev : RknpuDevice) (jid : Nat) :
    RknpuDevice :=
  let job := dev.jobs.getD jid RknpuJob.null
  if job.args.core_mask = RKNPU_CORE_AUTO_MASK then
    let ci := rknpu_schedule_core_index dev
    let job := { job with
      args := { job.args with core_mask := rknpu_core_mask ci }
      use_core_num := 1
      run_count := 1
      interrupt_count := 1 }
    { dev with jobs := dev.jobs.set jid job }
  else dev

/-- rknpu_job_schedule, enqueue phase (rknpu_job.c:630-638): appends the
job to every participating core's FIFO and adds its per-core task count
to that queue's load counter. -/
def rknpu_job_schedule_enqueue (dev : RknpuDevice) (jid : Nat) :
    RknpuDevice :=
  let job := dev.jobs.getD jid RknpuJob.null
  (List.range dev.config.num_irqs).foldl (fun d i =>
    if job.args.core_mask &&& rknpu_core_mask i ≠ 0 then
      let sd := d.subcore_datas.getD i RknpuSubcoreData.null
      let sd := { sd with
        todo_list := sd.todo_list ++ [jid]
        task_num := sd.task_num + rknpu_get_task_number d.config job i }
      { d with subcore_datas := d.subcore_datas.set i sd }
    else d) dev

/-- rknpu_job_schedule, advance phase (rknpu_job.c:640-643): tries to
advance each participating core. -/
def rknpu_job_schedule_advance (dev : RknpuDevice) (jid : Nat) :
    RknpuDevice × List Event :=
  let job := dev.jobs.getD jid RknpuJob.null
  (List.range dev.config.num_irqs).foldl
    (fun (acc : RknpuDevice × List Event) i =>
      if job.args.core_mask &&& rknpu_core_mask i ≠ 0 then
        let (d, ev) := rknpu_job_next acc.1 i
        (d, acc.2 ++ ev)
      else acc) (dev, [])

/-- rknpu_job_schedule (rknpu_job.c:615): resolve the AUTO mask, enqueue
on every participating core, then advance those cores. -/
def rknpu_job_schedule (dev : RknpuDevice) (jid : Nat) :
    RknpuDevice × List Event :=
  rknpu_job_schedule_advance
    (rknpu_job_schedule_enqueue (rknpu_job_schedule_resolve_auto dev jid) jid)
    jid

/-- Result of rknpu_submit: either a validation rejection issued before
any job is allocated, or the device state after the job was built and
scheduled. -/
inductive SubmitResult where
  | validationError (err : Int)
  | submitted (dev : RknpuDevice) (jid : Nat) (events : List Event)
  deriving Repr, DecidableEq

/-- rknpu_submit (rknpu_job.c:814): rejects a zero task count or a core
mask above the capability mask before allocating the job; otherwise
builds the job (async jobs get `RKNPU_JOB_ASYNC`) and schedules it.  The
blocking wait that follows scheduling is modelled separately by
`rknpu_job_wait`. -/
def rknpu_submit (dev : RknpuDevice) (args : RknpuSubmit) : SubmitResult :=
  if args.task_number = 0 then .validationError (-EINVAL)
  else if args.core_mask > dev.config.core_mask then .validationError (-EINVAL)
  else
    let job := rknpu_job_alloc args
    let job := if args.flags &&& RKNPU_JOB_NONBLOCK ≠ 0 then
      { job with flags := job.flags ||| RKNPU_JOB_ASYNC } else job
    let jid := dev.jobs.length
    let dev := { dev with jobs := dev.jobs ++ [job] }
    let (dev, ev) := rknpu_job_schedule dev jid
    .submitted dev jid ev

/-- rknpu_job_wait (rknpu_job.c:154), after the wait loop has produced its
final `wait_event_timeout` result `waitRet` (0 = timed out, positive =
condition observed): a job whose commit never resolved a last task is
unlinked from the pending FIFOs and fails; a timeout fails with
`-ETIMEDOUT`; a wake without `RKNPU_JOB_DONE` fails with `-EINVAL`; on
success the reported task counter is the submission's task number.
(The in-loop diagnostics and hardware register polling are log-only.) -/
def rknpu_job_wait (dev : RknpuDevice) (jid : Nat) (waitRet : Int) :
    RknpuDevice × Except Int Int :=
  let job := dev.jobs.getD jid RknpuJob.null
  if job.last_task = none then
    let dev := (List.range job.use_core_num).foldl (fun d i =>
      let sd := d.subcore_datas.getD i RknpuSubcoreData.null
      let sd := { sd with todo_list := sd.todo_list.erase jid }
      { d with subcore_datas := d.subcore_datas.set i sd }) dev
    (dev, .error (if waitRet < 0 then waitRet else -EINVAL))
  else if waitRet ≤ 0 then
    (dev, .error (if waitRet < 0 then waitRet else -ETIMEDOUT))
  else if job.flags &&& RKNPU_JOB_DONE = 0 then
    (dev, .error (-EINVAL))
  else
    (dev, .ok job.args.task_number)

/-- rknpu_irq_handler (rknpu_job.c:745): with no running job, clears the
interrupt and tries to advance the queue; with a running job, records the
status and — only when the fuzzed status matches the mask recorded at
commit time — clears and completes; on mismatch it clears and drops the
interrupt.  (`raw_status` and the hardware task counter are log-only.) -/
def rknpu_irq_handler (dev : RknpuDevice) (core_index : Nat)
    (status : Nat) : RknpuDevice × List Event :=
  let sd := dev.subcore_datas.getD core_index RknpuSubcoreData.null
  match sd.job with
  | none =>
    let (dev, ev) := rknpu_job_next dev core_index
    (dev, Event.clearInt core_index :: ev)
  | some jid =>
    let job := dev.jobs.getD jid RknpuJob.null
    let job := { job with
      irq_entry := job.irq_entry.set core_index true
      int_status := job.int_status.set core_index status }
    let dev := { dev with jobs := dev.jobs.set jid job }
    if rknpu_fuzz_status status ≠ job.int_mask.getD core_index 0 then
      (dev, [Event.clearInt core_index])
    else
      let (dev, ev) := rknpu_job_done dev jid 0 core_index
      (dev, Event.clearInt core_index :: ev)

/-! Power controller (rknpu_drv.c:101-164).  Each mutex-protected
critical section is one atomic step; the follow-up calls a section makes
after dropping the mutex (e.g. `rknpu_power_put` retrying through
`rknpu_power_put_delay` when power-off fails) appear as later steps of
the operation sequence, so quantifying over all sequences covers every
real interleaving.  The outcome of the physical `rknpu_power_off`
sequence is an environment input `offOk`. -/

/-- Kernel atomic_dec_if_positive: decrements only when the result stays
non-negative; returns (stored value, returned value), where the returned
value is always old - 1. -/
def atomic_dec_if_positive (v : Int) : Int × Int :=
  (if v > 0 then v - 1 else v, v - 1)

/-- Power-related observable effects. -/
inductive PowerEvent where
  | powerOn
  | powerOffInvoked
  | queueDelayedWork
  deriving Repr, DecidableEq

/-- Power controller state: the device's power reference count. -/
structure PowerState where
  power_refcount : Int
  deriving Repr, DecidableEq

/-- rknpu_power_get (rknpu_drv.c:119): increments the count; the 0 to 1
transition performs the physical power-on. -/
def rknpu_power_get (st : PowerState) : PowerState × List PowerEvent :=
  let v := st.power_refcount + 1
  (⟨v⟩, if v = 1 then [.powerOn] else [])

/-- rknpu_power_put (rknpu_drv.c:131): decrements only if positive; only
a 1 to 0 transition invokes the physical power-off, and a failed
power-off restores the count to 1. -/
def rknpu_power_put (offOk : Bool) (st : PowerState) :
    PowerState × List PowerEvent :=
  let (v, r) := atomic_dec_if_positive st.power_refcount
  if r = 0 then
    (⟨if offOk then v else v + 1⟩, [.powerOffInvoked])
  else (⟨v⟩, [])

/-- rknpu_power_put_delay (rknpu_drv.c:149): with a zero configured delay
it is a plain put; otherwise a count of exactly 1 queues the delayed
power-off work and leaves the count at 1, and any other count just
dec-if-positives. -/
def rknpu_power_put_delay (delay : Nat) (offOk : Bool) (st : PowerState) :
    PowerState × List PowerEvent :=
  if delay = 0 then rknpu_power_put offOk st
  else if st.power_refcount = 1 then (st, [.queueDelayedWork])
  else (⟨(atomic_dec_if_positive st.power_refcount).1⟩, [])

/-- rknpu_power_off_delay_work (rknpu_drv.c:101): the delayed work body is
the same critical section as rknpu_power_put. -/
def rknpu_power_off_delay_work (offOk : Bool) (st : PowerState) :
    PowerState × List PowerEvent :=
  rknpu_power_put offOk st

/-- One serialized power operation (one critical section). -/
inductive PowerOp where
  | get
  | put (offOk : Bool)
  | putDelay (delay : Nat) (offOk : Bool)
  | delayWork (offOk : Bool)
  deriving Repr, DecidableEq

def powerStep (op : PowerOp) (st : PowerState) : PowerState × List PowerEvent :=
  match op with
  | .get => rknpu_power_get st
  | .put offOk => rknpu_power_put offOk st
  | .putDelay delay offOk => rknpu_power_put_delay delay offOk st
  | .delayWork offOk => rknpu_power_off_delay_work offOk st

/-- Run a sequence of power operations, accumulating events. -/
def powerRun (ops : List PowerOp) (st : PowerState) :
    PowerState × List PowerEvent :=
  match ops with
  | [] => (st, [])
  | op :: rest =>
    let (st1, ev1) := powerStep op st
    let (st2, ev2) := powerRun rest st1
    (st2, ev1 ++ ev2)

/-! Buffer registry, MEM_MAP path (rknpu_drv.c:349 and the session
tracking in rknpu_mem_simple.c:191, which appends each successfully
created buffer to the tail of the session list). -/

/-- struct rknpu_mem_object (the fields the MEM_MAP path reads). -/
structure RknpuMemObject where
  dma_addr : Nat
  size : Nat
  owner : Bool
  deriving Repr, DecidableEq

/-- rknpu_mem_create_ioctl session tracking (rknpu_mem_simple.c:191):
list_add_tail appends the new buffer at the tail of the session list. -/
def rknpu_mem_create_track (session : List RknpuMemObject)
    (obj : RknpuMemObject) : List RknpuMemObject :=
  session ++ [obj]

/-- rknpu_mem_map_ioctl (rknpu_drv.c:349): returns the dma address of the
last (most recently added) entry of the session list as the mmap offset,
or -EINVAL when the list is empty; the caller-supplied handle is only
logged. -/
def rknpu_mem_map_ioctl (session : List RknpuMemObject) (handle : Nat) :
    Except Int Nat :=
  match session.getLast? with
  | none => .error (-EINVAL)
  | some entry => .ok entry.dma_addr

/-! Trace drivers and observers used by the theorems. -/

/-- Iterate rknpu_job_done at one core (one call per completion interrupt
of that core), accumulating events. -/
def jobDoneTimes (n : Nat) (dev : RknpuDevice) (jid : Nat) (core : Nat) :
    RknpuDevice × List Event :=
  match n with
  | 0 => (dev, [])
  | n + 1 =>
    let (d, e) := rknpu_job_done dev jid 0 core
    let (d2, e2) := jobDoneTimes n d jid core
    (d2, e ++ e2)

/-- Run one final per-core completion (rknpu_job_done) for each core in
the list, in order, accumulating events. -/
def jobDoneSeq (cores : List Nat) (dev : RknpuDevice) (jid : Nat)
    (ret : Int) : RknpuDevice × List Event :=
  match cores with
  | [] => (dev, [])
  | c :: cs =>
    let (d, e) := rknpu_job_done dev jid ret c
    let (d2, e2) := jobDoneSeq cs d jid ret
    (d2, e ++ e2)

/-- Run one queue advance (rknpu_job_next) for each core in the list, in
order, accumulating events. -/
def jobNextSeq (cores : List Nat) (dev : RknpuDevice) :
    RknpuDevice × List Event :=
  match cores with
  | [] => (dev, [])
  | c :: cs =>
    let (d, e) := rknpu_job_next dev c
    let (d2, e2) := jobNextSeq cs d
    (d2, e ++ e2)

/-- Which core a commit event programmed, if any. -/
def Event.commitTarget : Event → Option Nat
  | .commitCore c _ _ => some c
  | _ => none

/-- The pending-task load of a core's queue. -/
def subcoreLoad (dev : RknpuDevice) (i : Nat) : Int :=
  (dev.subcore_datas.getD i RknpuSubcoreData.null).task_num

/-- Sum of the per-core executed-task counts over the participating
cores of a job. -/
def perCoreTaskSum (cfg : RknpuConfig) (job : RknpuJob) : Int :=
  ((List.range RKNPU_MAX_CORES).filter
    (fun i => job.args.core_mask &&& rknpu_core_mask i ≠ 0)).foldl
    (fun a i => a + rknpu_get_task_number cfg job i) 0

def SubmitResult.isSubmitted : SubmitResult → Bool
  | .submitted _ _ _ => true
  | .validationError _ => false

def SubmitResult.dev : SubmitResult → RknpuDevice
  | .submitted d _ _ => d
  | .validationError _ =>
    { config := rk3588_rknpu_config, subcore_datas := [], soft_reseting := false
      jobs := [] }

def SubmitResult.events : SubmitResult → List Event
  | .submitted _ _ ev => ev
  | .validationError _ => []

/-! List access helpers (getD over set). -/

theorem getD_set_self {α : Type} (l : List α) (i : Nat) (a d : α)
    (h : i < l.length) : (l.set i a).getD i d = a := by
  simp [List.getD_eq_getElem?_getD, List.getElem?_set_self, h]

theorem getD_set_other {α : Type} (l : List α) (i j : Nat) (a d : α)
    (h : i ≠ j) : (l.set i a).getD j d = l.getD j d := by
  simp [List.getD_eq_getElem?_getD, List.getElem?_set_ne, h]

/-- A 3-bit mask is numerically at most 7 exactly when it is contained in
the capability mask 0x7. -/
theorem mask_sub_iff (m : Nat) : m &&& 7 = m ↔ m < 8 := by
  rw [show (7 : Nat) = 2 ^ 3 - 1 by norm_num, Nat.and_pow_two_sub_one_eq_mod]
  constructor
  · intro h; rw [← h]; exact Nat.mod_lt _ (by norm_num)
  · intro h; exact Nat.mod_eq_of_lt h

/-- Every single power critical section keeps the reference count
non-negative. -/
theorem powerStep_nonneg (op : PowerOp) (st : PowerState)
    (h : 0 ≤ st.power_refcount) : 0 ≤ (powerStep op st).1.power_refcount := by
  cases op <;>
    (simp only [powerStep, rknpu_power_get, rknpu_power_put,
      rknpu_power_put_delay, rknpu_power_off_delay_work,
      atomic_dec_if_positive]
     first
     | omega
     | (split_ifs <;> first | omega | (simp_all; omega) | simp_all))

/-- Any sequence of power critical sections keeps the reference count
non-negative. -/
theorem powerRun_nonneg (ops : List PowerOp) (st : PowerState)
    (h : 0 ≤ st.power_refcount) : 0 ≤ (powerRun ops st).1.power_refcount := by
  induction ops generalizing st with
  | nil => simpa [powerRun] using h
  | cons op rest ih =>
    simp only [powerRun]
    exact ih _ (powerStep_nonneg op st h)

/-- C5: starting from a non-negative power reference count, any sequence
of acquire / release / deferred-release / delayed-work sections leaves the
count non-negative; a release on a count of zero is a no-op that does not
invoke power-off; no operation invokes the physical power-off unless the
count is exactly 1; and a release on a count of 1 does invoke it. -/
theorem power_refcount_safety (ops : List PowerOp) (st : PowerState)
    (h : 0 ≤ st.power_refcount) :
    0 ≤ (powerRun ops st).1.power_refcount ∧
    (st.power_refcount = 0 → ∀ offOk, rknpu_power_put offOk st = (st, [])) ∧
    (∀ op, PowerEvent.powerOffInvoked ∈ (powerStep op st).2 →
      st.power_refcount = 1) ∧
    (st.power_refcount = 1 → ∀ offOk,
      (rknpu_power_put offOk st).2 = [PowerEvent.powerOffInvoked]) := by
  refine ⟨powerRun_nonneg ops st h, ?_, ?_, ?_⟩
  · intro h0 offOk
    cases st
    simp_all [rknpu_power_put, atomic_dec_if_positive]
  · intro op hmem
    cases op <;>
      (simp only [powerStep, rknpu_power_get, rknpu_power_put,
        rknpu_power_put_delay, rknpu_power_off_delay_work,
        atomic_dec_if_positive] at hmem
       split_ifs at hmem <;> simp_all <;> try omega)
  · intro h1 offOk
    simp [rknpu_power_put, atomic_dec_if_positive, h1]

/-- Witness for power_refcount_safety at a concrete state and sequence. -/
theorem power_refcount_safety_witness :
    0 ≤ (powerRun [PowerOp.get, PowerOp.get, PowerOp.put true,
      PowerOp.put true, PowerOp.put true] ⟨0⟩).1.power_refcount ∧
    ((0 : Int) = 0 → ∀ offOk, rknpu_power_put offOk ⟨0⟩ = (⟨0⟩, [])) ∧
    (∀ op, PowerEvent.powerOffInvoked ∈ (powerStep op ⟨0⟩).2 →
      (0 : Int) = 1) ∧
    ((0 : Int) = 1 → ∀ offOk,
      (rknpu_power_put offOk ⟨0⟩).2 = [PowerEvent.powerOffInvoked]) :=
  power_refcount_safety _ ⟨0⟩ (by decide)

/-- C6: with the rk3588 configuration (capability mask 0x7), rknpu_submit
rejects with -EINVAL — returning before any job is allocated or any other
state is touched, as the validationError constructor carries no device
state — exactly when the task count is zero or the requested core mask is
not contained in the capability mask; every other submission proceeds to
job construction and scheduling. -/
theorem submit_validation_exact (dev : RknpuDevice) (args : RknpuSubmit)
    (hcfg : dev.config = rk3588_rknpu_config) :
    ((∃ e, rknpu_submit dev args = .validationError e) ↔
      (args.task_number = 0 ∨
        ¬ (args.core_mask &&& dev.config.core_mask = args.core_mask))) ∧
    (∀ e, rknpu_submit dev args = .validationError e → e = -EINVAL) ∧
    (args.task_number ≠ 0 →
      args.core_mask &&& dev.config.core_mask = args.core_mask →
      ∃ d j ev, rknpu_submit dev args = .submitted d j ev) := by
  have h7 : rk3588_rknpu_config.core_mask = 7 := rfl
  unfold rknpu_submit
  rw [hcfg, h7]
  by_cases h1 : args.task_number = 0
  · simp [h1]
  · by_cases h2 : args.core_mask > 7
    · have hn : ¬ args.core_mask < 8 := by omega
      simp [h1, h2, mask_sub_iff, hn]
    · have hy : args.core_mask < 8 := by omega
      simp [h1, h2, mask_sub_iff, hy]

/-- A fixed empty rk3588 device used by concrete witnesses. -/
def emptyDev : RknpuDevice :=
  { config := rk3588_rknpu_config
    subcore_datas := [RknpuSubcoreData.null, RknpuSubcoreData.null,
      RknpuSubcoreData.null]
    soft_reseting := false
    jobs := [] }

/-- A submission with zero tasks and an out-of-capability core mask, used
by the validation witness. -/
def badArgs : RknpuSubmit :=
  { RknpuSubmit.null with task_number := 0, core_mask := 0x9 }

/-- Witness for submit_validation_exact at a concrete device and
submission. -/
theorem submit_validation_exact_witness :
    ((∃ e, rknpu_submit emptyDev badArgs = .validationError e) ↔
      (badArgs.task_number = 0 ∨
        ¬ (badArgs.core_mask &&& emptyDev.config.core_mask =
            badArgs.core_mask))) ∧
    (∀ e, rknpu_submit emptyDev badArgs = .validationError e →
      e = -EINVAL) ∧
    (badArgs.task_number ≠ 0 →
      badArgs.core_mask &&& emptyDev.config.core_mask = badArgs.core_mask →
      ∃ d j ev, rknpu_submit emptyDev badArgs = .submitted d j ev) :=
  submit_validation_exact emptyDev badArgs rfl

/-- C10: the MEM_MAP ioctl result does not depend on the caller-supplied
handle; it fails with -EINVAL exactly when the session's buffer list is
empty, and otherwise returns the device address of the last — most
recently created — buffer still on the session list (creation appends at
the tail). -/
theorem mem_map_ignores_handle (session : List RknpuMemObject)
    (h1 h2 : Nat) :
    rknpu_mem_map_ioctl session h1 = rknpu_mem_map_ioctl session h2 ∧
    (rknpu_mem_map_ioctl session h1 = .error (-EINVAL) ↔ session = []) ∧
    (∀ rest last, session = rest ++ [last] →
      rknpu_mem_map_ioctl session h1 = .ok last.dma_addr) ∧
    (∀ obj, rknpu_mem_map_ioctl (rknpu_mem_create_track session obj) h1 =
      .ok obj.dma_addr) := by
  refine ⟨rfl, ?_, ?_, ?_⟩
  · unfold rknpu_mem_map_ioctl
    rcases hg : session.getLast? with _ | e
    · simp [List.getLast?_eq_none_iff.mp hg]
    · constructor
      · intro hc; cases hc
      · rintro rfl; simp at hg
  · rintro rest last rfl
    simp [rknpu_mem_map_ioctl]
  · intro obj
    simp [rknpu_mem_map_ioctl, rknpu_mem_create_track]

/-- C4: the load balancer picks a core whose queue load is minimal over
all cores, strictly below every lower-indexed core's load (so ties go to
the lowest index); and it is consulted only for the AUTO core mask — a
manual mask leaves the device untouched by the resolve-auto phase, while
the AUTO mask rewrites the job to the selected single core. -/
theorem auto_core_selection_least_loaded (dev : RknpuDevice) (jid : Nat)
    (hcfg : dev.config = rk3588_rknpu_config) (hjid : jid < dev.jobs.length) :
    (∀ j, j < dev.config.num_irqs →
      subcoreLoad dev (rknpu_schedule_core_index dev) ≤ subcoreLoad dev j) ∧
    (∀ j, j < rknpu_schedule_core_index dev →
      subcoreLoad dev (rknpu_schedule_core_index dev) < subcoreLoad dev j) ∧
    rknpu_schedule_core_index dev < dev.config.num_irqs ∧
    ((dev.jobs.getD jid RknpuJob.null).args.core_mask ≠ RKNPU_CORE_AUTO_MASK →
      rknpu_job_schedule_resolve_auto dev jid = dev) ∧
    ((dev.jobs.getD jid RknpuJob.null).args.core_mask = RKNPU_CORE_AUTO_MASK →
      ((rknpu_job_schedule_resolve_auto dev jid).jobs.getD jid
          RknpuJob.null).args.core_mask =
        rknpu_core_mask (rknpu_schedule_core_index dev) ∧
      ((rknpu_job_schedule_resolve_auto dev jid).jobs.getD jid
          RknpuJob.null).use_core_num = 1) := by
  have h3 : dev.config.num_irqs = 3 := by rw [hcfg]; rfl
  refine ⟨?_, ?_, ?_, ?_, ?_⟩
  · intro j hj
    rw [h3] at hj
    simp only [rknpu_schedule_core_index, h3, subcoreLoad]
    norm_num [List.range_succ]
    interval_cases j <;> split_ifs <;> simp_all <;> omega
  · intro j hj
    simp only [rknpu_schedule_core_index, h3, subcoreLoad] at hj ⊢
    norm_num [List.range_succ] at hj ⊢
    split_ifs at hj ⊢ <;> (try interval_cases j) <;> simp_all <;> omega
  · rw [h3]
    simp only [rknpu_schedule_core_index, h3]
    norm_num [List.range_succ]
    split_ifs <;> simp
  · intro hm
    simp only [rknpu_job_schedule_resolve_auto]
    rw [if_neg hm]
  · intro hm
    simp only [rknpu_job_schedule_resolve_auto, hm, eq_self_iff_true, if_true]
    rw [getD_set_self _ _ _ _ hjid]
    exact ⟨rfl, rfl⟩

/-- A device with unequal queue loads and one AUTO-mask job, used by the
load-balancing witness. -/
def c4Dev : RknpuDevice :=
  { config := rk3588_rknpu_config
    subcore_datas := [⟨[], none, 2⟩, ⟨[], none, 2⟩, ⟨[], none, 1⟩]
    soft_reseting := false
    jobs := [rknpu_job_alloc RknpuSubmit.null] }

/-- Witness for auto_core_selection_least_loaded at a concrete device. -/
theorem auto_core_selection_least_loaded_witness :
    (∀ j, j < c4Dev.config.num_irqs →
      subcoreLoad c4Dev (rknpu_schedule_core_index c4Dev) ≤
        subcoreLoad c4Dev j) ∧
    (∀ j, j < rknpu_schedule_core_index c4Dev →
      subcoreLoad c4Dev (rknpu_schedule_core_index c4Dev) <
        subcoreLoad c4Dev j) ∧
    rknpu_schedule_core_index c4Dev < c4Dev.config.num_irqs ∧
    ((c4Dev.jobs.getD 0 RknpuJob.null).args.core_mask ≠
        RKNPU_CORE_AUTO_MASK →
      rknpu_job_schedule_resolve_auto c4Dev 0 = c4Dev) ∧
    ((c4Dev.jobs.getD 0 RknpuJob.null).args.core_mask =
        RKNPU_CORE_AUTO_MASK →
      ((rknpu_job_schedule_resolve_auto c4Dev 0).jobs.getD 0
          RknpuJob.null).args.core_mask =
        rknpu_core_mask (rknpu_schedule_core_index c4Dev) ∧
      ((rknpu_job_schedule_resolve_auto c4Dev 0).jobs.getD 0
          RknpuJob.null).use_core_num = 1) :=
  auto_core_selection_least_loaded c4Dev 0 rfl (by decide)

/-- C7: an interrupt arriving while no job runs on the core clears the
interrupt and attempts to advance the queue; an interrupt whose fuzzed
status differs from the mask recorded at commit time only clears the
interrupt — the job is not completed (flags and cross-core counter are
untouched), its batch counter is not advanced, the core's running slot
and all queues are left as they were, and neither a commit nor a wake is
issued. -/
theorem irq_mismatch_drops_interrupt (dev : RknpuDevice)
    (core_index : Nat) (status : Nat) :
    ((dev.subcore_datas.getD core_index RknpuSubcoreData.null).job = none →
      rknpu_irq_handler dev core_index status =
        ((rknpu_job_next dev core_index).1,
          Event.clearInt core_index :: (rknpu_job_next dev core_index).2)) ∧
    (∀ jid,
      (dev.subcore_datas.getD core_index RknpuSubcoreData.null).job =
        some jid →
      jid < dev.jobs.length →
      rknpu_fuzz_status status ≠
        (dev.jobs.getD jid RknpuJob.null).int_mask.getD core_index 0 →
      (rknpu_irq_handler dev core_index status).2 =
        [Event.clearInt core_index] ∧
      (rknpu_irq_handler dev core_index status).1.subcore_datas =
        dev.subcore_datas ∧
      ((rknpu_irq_handler dev core_index status).1.jobs.getD jid
          RknpuJob.null).submit_count =
        (dev.jobs.getD jid RknpuJob.null).submit_count ∧
      ((rknpu_irq_handler dev core_index status).1.jobs.getD jid
          RknpuJob.null).flags =
        (dev.jobs.getD jid RknpuJob.null).flags ∧
      ((rknpu_irq_handler dev core_index status).1.jobs.getD jid
          RknpuJob.null).interrupt_count =
        (dev.jobs.getD jid RknpuJob.null).interrupt_count ∧
      ((rknpu_irq_handler dev core_index status).1.jobs.getD jid
          RknpuJob.null).last_task =
        (dev.jobs.getD jid RknpuJob.null).last_task) := by
  constructor
  · intro h
    simp only [rknpu_irq_handler, h]
  · intro jid hjob hlen hfz
    simp only [rknpu_irq_handler, hjob]
    rw [if_pos]
    · refine ⟨rfl, rfl, ?_, ?_, ?_, ?_⟩ <;>
        rw [getD_set_self _ _ _ _ hlen]
    · exact hfz

/-- A device with one job running on core 0 expecting interrupt mask
0x300, used by the interrupt-mismatch witness. -/
def c7Dev : RknpuDevice :=
  { config := rk3588_rknpu_config
    subcore_datas := [⟨[], some 0, 5⟩, RknpuSubcoreData.null,
      RknpuSubcoreData.null]
    soft_reseting := false
    jobs := [{ rknpu_job_alloc RknpuSubmit.null with
      int_mask := [0x300, 0, 0] }] }

/-- Witness for irq_mismatch_drops_interrupt: status 0x3 fuzzes to 0x3,
which differs from the recorded mask 0x300, so the interrupt is dropped. -/
theorem irq_mismatch_drops_interrupt_witness :
    (rknpu_irq_handler c7Dev 0 3).2 = [Event.clearInt 0] ∧
    (rknpu_irq_handler c7Dev 0 3).1.subcore_datas = c7Dev.subcore_datas ∧
    ((rknpu_irq_handler c7Dev 0 3).1.jobs.getD 0
        RknpuJob.null).submit_count =
      (c7Dev.jobs.getD 0 RknpuJob.null).submit_count ∧
    ((rknpu_irq_handler c7Dev 0 3).1.jobs.getD 0 RknpuJob.null).flags =
      (c7Dev.jobs.getD 0 RknpuJob.null).flags ∧
    ((rknpu_irq_handler c7Dev 0 3).1.jobs.getD 0
        RknpuJob.null).interrupt_count =
      (c7Dev.jobs.getD 0 RknpuJob.null).interrupt_count ∧
    ((rknpu_irq_handler c7Dev 0 3).1.jobs.getD 0
        RknpuJob.null).last_task =
      (c7Dev.jobs.getD 0 RknpuJob.null).last_task :=
  (irq_mismatch_drops_interrupt c7Dev 0 3).2 0 rfl (by decide) (by decide)

/-- Six placeholder task records backing the mask-0x5/0x6 scenario. -/
def c9Tasks : List RknpuTask :=
  [RknpuTask.default, RknpuTask.default, RknpuTask.default,
   RknpuTask.default, RknpuTask.default, RknpuTask.default]

/-- A PC-mode submission with 6 tasks split 3+3 over two cores, whose
core mask is a parameter. -/
def c9Args (mask : Nat) : RknpuSubmit :=
  { flags := RKNPU_JOB_PC, timeout := 1000, task_start := 0, task_number := 6
    task_counter := 0, core_mask := mask
    subcore_task := [⟨0, 3⟩, ⟨0, 3⟩, ⟨3, 3⟩, ⟨0, 0⟩, ⟨0, 0⟩]
    task_obj := some c9Tasks }

/-- C9: the two-core masks 0x5 (cores 0+2) and 0x6 (cores 1+2) pass
submit validation against capability mask 0x7 and the job becomes the
running job on both selected cores, yet the commit dispatch has no case
for them and programs no core at all; the job's last-task pointer stays
unset, and a blocking wait (shown for wait outcomes 0 and 1) returns
-EINVAL instead of ever completing. -/
theorem two_core_mask_with_core2_never_completes :
    ((rknpu_submit emptyDev (c9Args 5)).isSubmitted = true ∧
     (rknpu_submit emptyDev (c9Args 5)).dev.subcore_datas.map
       (fun s : RknpuSubcoreData => s.job) = [some 0, none, some 0] ∧
     (rknpu_submit emptyDev (c9Args 5)).events.filter Event.isCommit = [] ∧
     ((rknpu_submit emptyDev (c9Args 5)).dev.jobs.getD 0
        RknpuJob.null).last_task = none ∧
     (rknpu_job_wait (rknpu_submit emptyDev (c9Args 5)).dev 0 0).2 =
       .error (-EINVAL) ∧
     (rknpu_job_wait (rknpu_submit emptyDev (c9Args 5)).dev 0 1).2 =
       .error (-EINVAL)) ∧
    ((rknpu_submit emptyDev (c9Args 6)).isSubmitted = true ∧
     (rknpu_submit emptyDev (c9Args 6)).dev.subcore_datas.map
       (fun s : RknpuSubcoreData => s.job) = [none, some 0, some 0] ∧
     (rknpu_submit emptyDev (c9Args 6)).events.filter Event.isCommit = [] ∧
     ((rknpu_submit emptyDev (c9Args 6)).dev.jobs.getD 0
        RknpuJob.null).last_task = none ∧
     (rknpu_job_wait (rknpu_submit emptyDev (c9Args 6)).dev 0 0).2 =
       .error (-EINVAL) ∧
     (rknpu_job_wait (rknpu_submit emptyDev (c9Args 6)).dev 0 1).2 =
       .error (-EINVAL)) := by
  exact ⟨⟨rfl, rfl, rfl, rfl, rfl, rfl⟩, ⟨rfl, rfl, rfl, rfl, rfl, rfl⟩⟩

/-- A two-core PC submission whose requested task count (10) differs from
the sum of its per-core assignments (3 + 3): the driver accepts it and
never cross-checks the split. -/
def c8Args : RknpuSubmit :=
  { flags := RKNPU_JOB_PC, timeout := 1000, task_start := 0, task_number := 10
    task_counter := 0, core_mask := 3
    subcore_task := [⟨0, 3⟩, ⟨3, 3⟩, ⟨0, 0⟩, ⟨0, 0⟩, ⟨0, 0⟩]
    task_obj := some c9Tasks }

/-- The device after submitting c8Args and completing it on both cores. -/
def c8Done : RknpuDevice :=
  (jobDoneSeq [0, 1] (rknpu_submit emptyDev c8Args).dev 0 0).1

/-- C8 counterexample: the job built from c8Args completes successfully
and the wait reports 10 executed tasks (the requested count), but the sum
of the per-core executed-task counts is 6, so the reported count does not
equal the per-core sum. -/
theorem task_counter_sum_counterexample :
    (rknpu_job_wait c8Done 0 1).2 = .ok 10 ∧
    perCoreTaskSum c8Done.config (c8Done.jobs.getD 0 RknpuJob.null) = 6 ∧
    ¬ ((10 : Int) = 6) :=
  ⟨rfl, rfl, by decide⟩

/-- C8 (amended): when a wait observes successful completion, the
executed-task count reported to the client equals the requested task
count of the submission; it additionally equals the sum of the per-core
executed-task counts only when the client's per-core split sums to the
requested count — the driver does not validate that. -/
theorem task_counter_reported_equals_requested (dev : RknpuDevice)
    (jid : Nat) (waitRet : Int) (v : Int)
    (h : (rknpu_job_wait dev jid waitRet).2 = .ok v) :
    v = (dev.jobs.getD jid RknpuJob.null).args.task_number ∧
    (perCoreTaskSum dev.config (dev.jobs.getD jid RknpuJob.null) =
        (dev.jobs.getD jid RknpuJob.null).args.task_number →
      v = perCoreTaskSum dev.config (dev.jobs.getD jid RknpuJob.null)) := by
  simp only [List.getD_eq_getElem?_getD]
  by_cases h1 : (dev.jobs[jid]?.getD RknpuJob.null).last_task = none
  · simp [rknpu_job_wait, h1] at h
  · by_cases h2 : waitRet ≤ 0
    · simp [rknpu_job_wait, h1, h2] at h
    · by_cases h3 :
        (dev.jobs[jid]?.getD RknpuJob.null).flags &&& RKNPU_JOB_DONE = 0
      · simp [rknpu_job_wait, h1, h2, h3] at h
      · simp [rknpu_job_wait, h1, h2, h3] at h
        exact ⟨by omega, fun hs => by omega⟩

/-- Witness for task_counter_reported_equals_requested on the completed
c8Done device. -/
theorem task_counter_reported_equals_requested_witness :
    (10 : Int) = (c8Done.jobs.getD 0 RknpuJob.null).args.task_number ∧
    (perCoreTaskSum c8Done.config (c8Done.jobs.getD 0 RknpuJob.null) =
        (c8Done.jobs.getD 0 RknpuJob.null).args.task_number →
      (10 : Int) =
        perCoreTaskSum c8Done.config (c8Done.jobs.getD 0 RknpuJob.null)) :=
  task_counter_reported_equals_requested c8Done 0 1 10 rfl

/-- Witness for mem_map_ignores_handle at a concrete session. -/
theorem mem_map_ignores_handle_witness :
    rknpu_mem_map_ioctl [⟨0x1000, 4096, true⟩] 5 =
      rknpu_mem_map_ioctl [⟨0x1000, 4096, true⟩] 77 ∧
    (rknpu_mem_map_ioctl [⟨0x1000, 4096, true⟩] 5 = .error (-EINVAL) ↔
      ([⟨0x1000, 4096, true⟩] : List RknpuMemObject) = []) ∧
    (∀ rest last,
      ([⟨0x1000, 4096, true⟩] : List RknpuMemObject) = rest ++ [last] →
      rknpu_mem_map_ioctl [⟨0x1000, 4096, true⟩] 5 = .ok last.dma_addr) ∧
    (∀ obj,
      rknpu_mem_map_ioctl
        (rknpu_mem_create_track [⟨0x1000, 4096, true⟩] obj) 5 =
        .ok obj.dma_addr) :=
  mem_map_ignores_handle [⟨0x1000, 4096, true⟩] 5 77

/-- One PC commit for a single-core job programs exactly the sub-range
selected by the per-core batch counter: start offset by
submit_count * max_submit, length clipped to max_submit. -/
theorem commit_pc_round (cfg : RknpuConfig) (job : RknpuJob) (c : Nat)
    (s T : Int) (mem : List RknpuTask)
    (hn : cfg.num_irqs = 3)
    (hu : job.use_core_num = 1)
    (hst : job.args.subcore_task.getD c ⟨0, 0⟩ = ⟨s, T⟩)
    (hobj : job.args.task_obj = some mem) :
    (rknpu_job_subcore_commit_pc cfg job c).2 =
      [Event.commitCore c
        (s + job.submit_count.getD c 0 * cfg.max_submit_number)
        (min cfg.max_submit_number
          (T - job.submit_count.getD c 0 * cfg.max_submit_number))] := by
  simp only [rknpu_job_subcore_commit_pc, hobj, hn, hu, hst]
  norm_num
  rw [min_def]
  split_ifs <;> omega

/-- A PC commit only records first/last task and the expected interrupt
mask; the scheduling fields of the job are untouched. -/
theorem commit_pc_state (cfg : RknpuConfig) (job : RknpuJob) (c : Nat)
    (mem : List RknpuTask) (hobj : job.args.task_obj = some mem) :
    (rknpu_job_subcore_commit_pc cfg job c).1.args = job.args ∧
    (rknpu_job_subcore_commit_pc cfg job c).1.use_core_num =
      job.use_core_num ∧
    (rknpu_job_subcore_commit_pc cfg job c).1.submit_count =
      job.submit_count ∧
    (rknpu_job_subcore_commit_pc cfg job c).1.interrupt_count =
      job.interrupt_count ∧
    (rknpu_job_subcore_commit_pc cfg job c).1.flags = job.flags := by
  simp [rknpu_job_subcore_commit_pc, hobj]

/-- For PC-mode submissions the subcore commit is the PC commit. -/
theorem subcore_commit_of_pc (cfg : RknpuConfig) (job : RknpuJob) (c : Nat)
    (hpc : job.args.flags &&& RKNPU_JOB_PC ≠ 0) :
    rknpu_job_subcore_commit cfg job c =
      rknpu_job_subcore_commit_pc cfg job c := by
  simp [rknpu_job_subcore_commit, hpc]

/-- On a 3-irq device, a single-core job's per-core task count is its
subcore assignment. -/
theorem get_task_number_eq (cfg : RknpuConfig) (job : RknpuJob) (c : Nat)
    (s T : Int) (hn : cfg.num_irqs = 3) (hc : c < 3)
    (hu : job.use_core_num = 1)
    (hst : job.args.subcore_task.getD c ⟨0, 0⟩ = ⟨s, T⟩) :
    rknpu_get_task_number cfg job (c : Int) = T := by
  have h1 : ¬ ((c : Int) ≥ (RKNPU_MAX_CORES : Int) ∨ (c : Int) < 0) := by
    simp [RKNPU_MAX_CORES]; omega
  simp only [rknpu_get_task_number, h1, if_false, hn, hu]
  norm_num
  rw [List.getD_eq_getElem?_getD] at hst
  rw [hst]

/-- Setting bit 0 cannot set bit 1. -/
theorem or_one_and_two_eq_zero (a : Nat) (h : a &&& 2 = 0) :
    (a ||| 1) &&& 2 = 0 := by
  have h2 := congrArg (fun n => n.testBit 1) h
  simp [Nat.testBit_and] at h2
  have h1 : a.testBit 1 = false := by
    rcases Bool.eq_false_or_eq_true (a.testBit 1) with hb | hb
    · exact absurd (h2 hb) (by decide)
    · exact hb
  apply Nat.eq_of_testBit_eq
  intro i
  simp only [Nat.testBit_and, Nat.testBit_or, Nat.zero_testBit]
  rcases eq_or_ne i 1 with rfl | hi
  · have e1 : Nat.testBit 1 1 = false := by decide
    simp [h1, e1]
  · have ht : (2 : Nat).testBit i = false := by
      have he : (2 : Nat) = 2 ^ 1 := by norm_num
      rw [he, Nat.testBit_two_pow]
      simpa using fun hx => (hi hx.symm).elim
    simp [ht]

/-- Setting bit 0 makes bit 0 read back as set. -/
theorem or_one_and_one (a : Nat) : (a ||| 1) &&& 1 = 1 := by
  apply Nat.eq_of_testBit_eq
  intro i
  simp only [Nat.testBit_and, Nat.testBit_or]
  rcases eq_or_ne i 0 with rfl | hi
  · have e1 : Nat.testBit 1 0 = true := by decide
    simp [e1]
  · have ht : (1 : Nat).testBit i = false := by
      have h1 : (1 : Nat) = 2 ^ 0 := by norm_num
      rw [h1, Nat.testBit_two_pow]
      simpa using fun hx => (hi hx.symm).elim
    simp [ht]

/-- rknpu_job_done on the last batch of a single-core job's only core
takes the final path: it wakes the core's queue once, sets
RKNPU_JOB_DONE, zeroes the interrupt counter and leaves the batch
counter at its final value. -/
theorem job_done_final_base (dev : RknpuDevice) (jid c : Nat)
    (s T K : Int) (mem : List RknpuTask)
    (hn : dev.config.num_irqs = 3)
    (hM : 0 < dev.config.max_submit_number)
    (hsr : dev.soft_reseting = false)
    (hjid : jid < dev.jobs.length)
    (hc : c < 3)
    (hcl : c < dev.subcore_datas.length)
    (htodo : (dev.subcore_datas.getD c RknpuSubcoreData.null).todo_list = [])
    (hscl : (dev.jobs.getD jid RknpuJob.null).submit_count.length = 3)
    (hu : (dev.jobs.getD jid RknpuJob.null).use_core_num = 1)
    (hst : (dev.jobs.getD jid RknpuJob.null).args.subcore_task.getD c ⟨0, 0⟩ =
      ⟨s, T⟩)
    (hobj : (dev.jobs.getD jid RknpuJob.null).args.task_obj = some mem)
    (hasync : (dev.jobs.getD jid RknpuJob.null).flags &&& RKNPU_JOB_ASYNC = 0)
    (hic : (dev.jobs.getD jid RknpuJob.null).interrupt_count = 1)
    (hK : (dev.jobs.getD jid RknpuJob.null).submit_count.getD c 0 = K)
    (hKR : K + 1 = (T + dev.config.max_submit_number - 1) /
      dev.config.max_submit_number) :
    (rknpu_job_done dev jid 0 c).2 = [Event.wake c] ∧
    ((rknpu_job_done dev jid 0 c).1.jobs.getD jid RknpuJob.null).flags &&&
      RKNPU_JOB_DONE ≠ 0 ∧
    ((rknpu_job_done dev jid 0 c).1.jobs.getD jid
      RknpuJob.null).interrupt_count = 0 ∧
    ((rknpu_job_done dev jid 0 c).1.jobs.getD jid
      RknpuJob.null).submit_count.getD c 0 = K + 1 := by
  simp only [rknpu_job_done]
  split
  · next hcond =>
      exfalso
      have hT : rknpu_get_task_number dev.config
          { dev.jobs.getD jid RknpuJob.null with
            submit_count := (dev.jobs.getD jid RknpuJob.null).submit_count.set c
              ((dev.jobs.getD jid RknpuJob.null).submit_count.getD c 0 + 1) }
          (c : Int) = T :=
        get_task_number_eq _ _ c s T hn hc hu hst
      rw [hT, hK] at hcond
      omega
  · next hcond =>
      have hA : ((dev.jobs.getD jid RknpuJob.null).flags ||| RKNPU_JOB_DONE) &&&
          RKNPU_JOB_ASYNC = 0 := by
        have h2 := or_one_and_two_eq_zero
          (dev.jobs.getD jid RknpuJob.null).flags
          (by simpa [RKNPU_JOB_ASYNC] using hasync)
        simpa [RKNPU_JOB_DONE, RKNPU_JOB_ASYNC] using h2
      have hc3len : c < (dev.jobs.getD jid RknpuJob.null).submit_count.length := by
        rw [hscl]; exact hc
      have hjobs_set : ∀ a : RknpuJob,
          (dev.jobs.set jid a)[jid]?.getD RknpuJob.null = a := by
        intro a
        rw [← List.getD_eq_getElem?_getD]
        exact getD_set_self _ _ _ _ hjid
      have hsub_set : ∀ sd : RknpuSubcoreData,
          (dev.subcore_datas.set c sd)[c]?.getD RknpuSubcoreData.null = sd := by
        intro sd
        rw [← List.getD_eq_getElem?_getD]
        exact getD_set_self _ _ _ _ hcl
      have hsc_set : ∀ x : Int,
          ((dev.jobs.getD jid RknpuJob.null).submit_count.set c x)[c]?.getD 0 =
            x := by
        intro x
        rw [← List.getD_eq_getElem?_getD]
        exact getD_set_self _ _ _ _ hc3len
      have hdone1 : ∀ a : Nat,
          (a ||| RKNPU_JOB_DONE) &&& RKNPU_JOB_DONE = 1 := by
        intro a
        simp only [RKNPU_JOB_DONE]
        exact or_one_and_one a
      simp only [List.getD_eq_getElem?_getD] at hic hu hK hA htodo hsc_set
      simp [rknpu_job_next, hsr, hjobs_set, hsub_set, hsc_set, htodo,
        hic, hu, hK, hA, hdone1]

/-- rknpu_job_done with batches remaining re-commits exactly the next
batch round and only advances the job's batch counter. -/
theorem job_done_recommit_step (dev : RknpuDevice) (jid c : Nat)
    (s T K : Int) (mem : List RknpuTask)
    (hn : dev.config.num_irqs = 3)
    (hjid : jid < dev.jobs.length)
    (hc : c < 3)
    (hscl : (dev.jobs.getD jid RknpuJob.null).submit_count.length = 3)
    (hu : (dev.jobs.getD jid RknpuJob.null).use_core_num = 1)
    (hst : (dev.jobs.getD jid RknpuJob.null).args.subcore_task.getD c ⟨0, 0⟩ =
      ⟨s, T⟩)
    (hobj : (dev.jobs.getD jid RknpuJob.null).args.task_obj = some mem)
    (hpc : (dev.jobs.getD jid RknpuJob.null).args.flags &&& RKNPU_JOB_PC ≠ 0)
    (hK : (dev.jobs.getD jid RknpuJob.null).submit_count.getD c 0 = K)
    (hKlt : K + 1 < (T + dev.config.max_submit_number - 1) /
      dev.config.max_submit_number) :
    (rknpu_job_done dev jid 0 c).2 =
      [Event.commitCore c (s + (K + 1) * dev.config.max_submit_number)
        (min dev.config.max_submit_number
          (T - (K + 1) * dev.config.max_submit_number))] ∧
    ∃ jobNew,
      (rknpu_job_done dev jid 0 c).1 =
        { dev with jobs := dev.jobs.set jid jobNew } ∧
      jobNew.args = (dev.jobs.getD jid RknpuJob.null).args ∧
      jobNew.use_core_num = (dev.jobs.getD jid RknpuJob.null).use_core_num ∧
      jobNew.flags = (dev.jobs.getD jid RknpuJob.null).flags ∧
      jobNew.interrupt_count =
        (dev.jobs.getD jid RknpuJob.null).interrupt_count ∧
      jobNew.submit_count =
        (dev.jobs.getD jid RknpuJob.null).submit_count.set c (K + 1) := by
  have hc3len : c < (dev.jobs.getD jid RknpuJob.null).submit_count.length := by
    rw [hscl]; exact hc
  simp only [rknpu_job_done]
  split
  · next hcond =>
      have hT : rknpu_get_task_number dev.config
          { dev.jobs.getD jid RknpuJob.null with
            submit_count := (dev.jobs.getD jid RknpuJob.null).submit_count.set c
              ((dev.jobs.getD jid RknpuJob.null).submit_count.getD c 0 + 1) }
          (c : Int) = T :=
        get_task_number_eq _ _ c s T hn hc hu hst
      rw [subcore_commit_of_pc dev.config
        { dev.jobs.getD jid RknpuJob.null with
          submit_count := (dev.jobs.getD jid RknpuJob.null).submit_count.set c
            ((dev.jobs.getD jid RknpuJob.null).submit_count.getD c 0 + 1) }
        c hpc]
      have hround := commit_pc_round dev.config
        { dev.jobs.getD jid RknpuJob.null with
          submit_count := (dev.jobs.getD jid RknpuJob.null).submit_count.set c
            ((dev.jobs.getD jid RknpuJob.null).submit_count.getD c 0 + 1) }
        c s T mem hn hu hst hobj
      have hsc : ((dev.jobs.getD jid RknpuJob.null).submit_count.set c
          ((dev.jobs.getD jid RknpuJob.null).submit_count.getD c 0 + 1)).getD
            c 0 = K + 1 := by
        rw [getD_set_self _ _ _ _ hc3len, hK]
      have hstate := commit_pc_state dev.config
        { dev.jobs.getD jid RknpuJob.null with
          submit_count := (dev.jobs.getD jid RknpuJob.null).submit_count.set c
            ((dev.jobs.getD jid RknpuJob.null).submit_count.getD c 0 + 1) }
        c mem hobj
      constructor
      · rw [hround]
        simp only [hsc]
      · refine ⟨(rknpu_job_subcore_commit_pc dev.config
          { dev.jobs.getD jid RknpuJob.null with
            submit_count := (dev.jobs.getD jid RknpuJob.null).submit_count.set c
              ((dev.jobs.getD jid RknpuJob.null).submit_count.getD c 0 + 1) }
          c).1, rfl, ?_, ?_, ?_, ?_, ?_⟩
        · rw [hstate.1]
        · rw [hstate.2.1]
        · rw [hstate.2.2.2.2]
        · rw [hstate.2.2.2.1]
        · rw [hstate.2.2.1]
          rw [hK]
  · next hcond =>
      exfalso
      have hT : rknpu_get_task_number dev.config
          { dev.jobs.getD jid RknpuJob.null with
            submit_count := (dev.jobs.getD jid RknpuJob.null).submit_count.set c
              ((dev.jobs.getD jid RknpuJob.null).submit_count.getD c 0 + 1) }
          (c : Int) = T :=
        get_task_number_eq _ _ c s T hn hc hu hst
      rw [hT, hK] at hcond
      omega

/-- Prepending the image of 0 to a shifted map over a range is the map
over the extended range. -/
theorem map_range_shift {α : Type} (n : Nat) (f g : Nat → α) (x : α)
    (hx : x = f 0) (h : ∀ i, g i = f (i + 1)) :
    x :: (List.range n).map g = (List.range (n + 1)).map f := by
  rw [List.range_succ_eq_map, List.map_cons, List.map_map]
  subst hx
  congr 1
  apply List.map_congr_left
  intro i _
  simp [h i]

/-- Completing the remaining m batch rounds of a single-core job emits
exactly the m-1 remaining re-commit rounds followed by one wake, and
ends with the job done. -/
theorem jobDoneTimes_trace (m : Nat) (dev : RknpuDevice) (jid c : Nat)
    (s T K : Int) (mem : List RknpuTask)
    (hn : dev.config.num_irqs = 3)
    (hM : 0 < dev.config.max_submit_number)
    (hsr : dev.soft_reseting = false)
    (hjid : jid < dev.jobs.length)
    (hc : c < 3)
    (hcl : c < dev.subcore_datas.length)
    (htodo : (dev.subcore_datas.getD c RknpuSubcoreData.null).todo_list = [])
    (hscl : (dev.jobs.getD jid RknpuJob.null).submit_count.length = 3)
    (hu : (dev.jobs.getD jid RknpuJob.null).use_core_num = 1)
    (hst : (dev.jobs.getD jid RknpuJob.null).args.subcore_task.getD c ⟨0, 0⟩ =
      ⟨s, T⟩)
    (hobj : (dev.jobs.getD jid RknpuJob.null).args.task_obj = some mem)
    (hpc : (dev.jobs.getD jid RknpuJob.null).args.flags &&& RKNPU_JOB_PC ≠ 0)
    (hasync : (dev.jobs.getD jid RknpuJob.null).flags &&& RKNPU_JOB_ASYNC = 0)
    (hic : (dev.jobs.getD jid RknpuJob.null).interrupt_count = 1)
    (hK : (dev.jobs.getD jid RknpuJob.null).submit_count.getD c 0 = K)
    (hKR : K + m = (T + dev.config.max_submit_number - 1) /
      dev.config.max_submit_number)
    (hm : 1 ≤ m) :
    (jobDoneTimes m dev jid c).2 =
      ((List.range (m - 1)).map (fun (i : Nat) =>
        Event.commitCore c
          (s + (K + 1 + (i : Int)) * dev.config.max_submit_number)
          (min dev.config.max_submit_number
            (T - (K + 1 + (i : Int)) * dev.config.max_submit_number)))) ++
        [Event.wake c] ∧
    ((jobDoneTimes m dev jid c).1.jobs.getD jid RknpuJob.null).flags &&&
      RKNPU_JOB_DONE ≠ 0 ∧
    ((jobDoneTimes m dev jid c).1.jobs.getD jid
      RknpuJob.null).interrupt_count = 0 ∧
    ((jobDoneTimes m dev jid c).1.jobs.getD jid
      RknpuJob.null).submit_count.getD c 0 = K + m := by
  induction m generalizing dev K with
  | zero => omega
  | succ m ih =>
    rcases Nat.eq_zero_or_pos m with rfl | hm1
    · -- single completion: take the final path
      have hbase := job_done_final_base dev jid c s T K mem hn hM hsr hjid hc
        hcl htodo hscl hu hst hobj hasync hic hK (by omega)
      simp only [jobDoneTimes]
      refine ⟨?_, hbase.2.1, hbase.2.2.1, ?_⟩
      · rw [hbase.1]
        simp
      · rw [hbase.2.2.2]
        push_cast
        ring
    · -- recommit, then induct on the remaining completions
      have hstep := job_done_recommit_step dev jid c s T K mem hn hjid hc
        hscl hu hst hobj hpc hK (by omega)
      have hev := hstep.1
      obtain ⟨jobNew, hdev2, hargs, huse, hflags, hicN, hsub⟩ := hstep.2
      have hget : ({ dev with jobs := dev.jobs.set jid jobNew } :
          RknpuDevice).jobs.getD jid RknpuJob.null = jobNew :=
        getD_set_self _ _ _ _ hjid
      have hsclen : c < (dev.jobs.getD jid RknpuJob.null).submit_count.length := by
        rw [hscl]; exact hc
      have hjid2 : jid <
          ({ dev with jobs := dev.jobs.set jid jobNew } :
            RknpuDevice).jobs.length := by
        simpa using hjid
      have hscl2 : (({ dev with jobs := dev.jobs.set jid jobNew } :
          RknpuDevice).jobs.getD jid RknpuJob.null).submit_count.length = 3 := by
        rw [hget, hsub, List.length_set]; exact hscl
      have hu2 : (({ dev with jobs := dev.jobs.set jid jobNew } :
          RknpuDevice).jobs.getD jid RknpuJob.null).use_core_num = 1 := by
        rw [hget, huse]; exact hu
      have hst2 : (({ dev with jobs := dev.jobs.set jid jobNew } :
          RknpuDevice).jobs.getD jid
            RknpuJob.null).args.subcore_task.getD c ⟨0, 0⟩ = ⟨s, T⟩ := by
        rw [hget, hargs]; exact hst
      have hobj2 : (({ dev with jobs := dev.jobs.set jid jobNew } :
          RknpuDevice).jobs.getD jid RknpuJob.null).args.task_obj =
            some mem := by
        rw [hget, hargs]; exact hobj
      have hpc2 : (({ dev with jobs := dev.jobs.set jid jobNew } :
          RknpuDevice).jobs.getD jid RknpuJob.null).args.flags &&&
            RKNPU_JOB_PC ≠ 0 := by
        rw [hget, hargs]; exact hpc
      have hasync2 : (({ dev with jobs := dev.jobs.set jid jobNew } :
          RknpuDevice).jobs.getD jid RknpuJob.null).flags &&&
            RKNPU_JOB_ASYNC = 0 := by
        rw [hget, hflags]; exact hasync
      have hic2 : (({ dev with jobs := dev.jobs.set jid jobNew } :
          RknpuDevice).jobs.getD jid RknpuJob.null).interrupt_count = 1 := by
        rw [hget, hicN]; exact hic
      have hK2 : (({ dev with jobs := dev.jobs.set jid jobNew } :
          RknpuDevice).jobs.getD jid
            RknpuJob.null).submit_count.getD c 0 = K + 1 := by
        rw [hget, hsub]
        exact getD_set_self _ _ _ _ hsclen
      have hKR2 : K + 1 + (m : Int) =
          (T + dev.config.max_submit_number - 1) /
            dev.config.max_submit_number := by
        push_cast at hKR
        omega
      have IH := ih { dev with jobs := dev.jobs.set jid jobNew } (K + 1) hn hM
        hsr hjid2 hcl htodo hscl2 hu2 hst2 hobj2 hpc2 hasync2 hic2 hK2 hKR2 hm1
      simp only [jobDoneTimes]
      rw [hev, hdev2]
      refine ⟨?_, IH.2.1, IH.2.2.1, ?_⟩
      · rw [IH.1, Nat.add_sub_cancel, ← List.append_assoc]
        have hmm : m - 1 + 1 = m := Nat.succ_pred_eq_of_pos hm1
        congr 1
        simp only [List.singleton_append]
        conv_rhs => rw [← hmm]
        apply map_range_shift
        · norm_num
        · intro i
          have e1 : K + 1 + 1 + (i : Int) = K + 1 + (((i + 1 : Nat) : Int)) := by
            push_cast
            ring
          rw [e1]
      · rw [IH.2.2.2]
        push_cast
        ring

/-- C3: for a single-core PC job with T > 0 tasks on core c and batch
limit M, the commit of batch round k programs the sub-range starting at
task_start + k*M with length min(M, T - k*M); starting from the round-0
commit already on hardware, the completion loop re-commits rounds
1..ceil(T/M)-1 and then completes the job, so exactly ceil(T/M) rounds
run in total (the final count conjunct), ending with RKNPU_JOB_DONE set
and the interrupt counter at zero. -/
theorem job_batch_rounds (dev : RknpuDevice) (jid c : Nat) (s T : Int)
    (mem : List RknpuTask)
    (hn : dev.config.num_irqs = 3)
    (hM : 0 < dev.config.max_submit_number)
    (hT : 0 < T)
    (hsr : dev.soft_reseting = false)
    (hjid : jid < dev.jobs.length)
    (hc : c < 3)
    (hcl : c < dev.subcore_datas.length)
    (htodo : (dev.subcore_datas.getD c RknpuSubcoreData.null).todo_list = [])
    (hscl : (dev.jobs.getD jid RknpuJob.null).submit_count.length = 3)
    (hu : (dev.jobs.getD jid RknpuJob.null).use_core_num = 1)
    (hst : (dev.jobs.getD jid RknpuJob.null).args.subcore_task.getD c ⟨0, 0⟩ =
      ⟨s, T⟩)
    (hobj : (dev.jobs.getD jid RknpuJob.null).args.task_obj = some mem)
    (hpc : (dev.jobs.getD jid RknpuJob.null).args.flags &&& RKNPU_JOB_PC ≠ 0)
    (hasync : (dev.jobs.getD jid RknpuJob.null).flags &&& RKNPU_JOB_ASYNC = 0)
    (hic : (dev.jobs.getD jid RknpuJob.null).interrupt_count = 1)
    (hK0 : (dev.jobs.getD jid RknpuJob.null).submit_count.getD c 0 = 0) :
    (∀ (job : RknpuJob) (k : Int), job.use_core_num = 1 →
      job.args.subcore_task.getD c ⟨0, 0⟩ = ⟨s, T⟩ →
      job.args.task_obj = some mem →
      job.submit_count.getD c 0 = k →
      (rknpu_job_subcore_commit_pc dev.config job c).2 =
        [Event.commitCore c (s + k * dev.config.max_submit_number)
          (min dev.config.max_submit_number
            (T - k * dev.config.max_submit_number))]) ∧
    (jobDoneTimes ((T + dev.config.max_submit_number - 1) /
        dev.config.max_submit_number).toNat dev jid c).2 =
      ((List.range (((T + dev.config.max_submit_number - 1) /
          dev.config.max_submit_number).toNat - 1)).map (fun (i : Nat) =>
        Event.commitCore c
          (s + (0 + 1 + (i : Int)) * dev.config.max_submit_number)
          (min dev.config.max_submit_number
            (T - (0 + 1 + (i : Int)) * dev.config.max_submit_number)))) ++
        [Event.wake c] ∧
    1 + ((jobDoneTimes ((T + dev.config.max_submit_number - 1) /
        dev.config.max_submit_number).toNat dev jid c).2.filter
          Event.isCommit).length =
      ((T + dev.config.max_submit_number - 1) /
        dev.config.max_submit_number).toNat ∧
    ((jobDoneTimes ((T + dev.config.max_submit_number - 1) /
        dev.config.max_submit_number).toNat dev jid c).1.jobs.getD jid
      RknpuJob.null).flags &&& RKNPU_JOB_DONE ≠ 0 ∧
    ((jobDoneTimes ((T + dev.config.max_submit_number - 1) /
        dev.config.max_submit_number).toNat dev jid c).1.jobs.getD jid
      RknpuJob.null).interrupt_count = 0 := by
  have hR1 : 1 ≤ (T + dev.config.max_submit_number - 1) /
      dev.config.max_submit_number := by
    rw [Int.le_ediv_iff_mul_le hM]
    omega
  have hRt : (((T + dev.config.max_submit_number - 1) /
      dev.config.max_submit_number).toNat : Int) =
      (T + dev.config.max_submit_number - 1) /
        dev.config.max_submit_number :=
    Int.toNat_of_nonneg (by omega)
  have hm1 : 1 ≤ ((T + dev.config.max_submit_number - 1) /
      dev.config.max_submit_number).toNat := by
    omega
  have htr := jobDoneTimes_trace
    ((T + dev.config.max_submit_number - 1) /
      dev.config.max_submit_number).toNat dev jid c s T 0 mem hn hM hsr hjid
    hc hcl htodo hscl hu hst hobj hpc hasync hic hK0 (by rw [hRt]; ring) hm1
  refine ⟨?_, htr.1, ?_, htr.2.1, htr.2.2.1⟩
  · intro job k hu2 hst2 hobj2 hk
    have := commit_pc_round dev.config job c s T mem hn hu2 hst2 hobj2
    rw [this, hk]
  · rw [htr.1]
    rw [List.filter_append, List.filter_map]
    simp only [Function.comp_def, Event.isCommit, List.filter_true]
    rw [show List.filter Event.isCommit [Event.wake c] = [] from rfl]
    simp only [List.append_nil, List.length_map, List.length_range]
    omega

/-- Ten placeholder task records for the 10-task scenario. -/
def c3Tasks : List RknpuTask :=
  [RknpuTask.default, RknpuTask.default, RknpuTask.default,
   RknpuTask.default, RknpuTask.default, RknpuTask.default,
   RknpuTask.default, RknpuTask.default, RknpuTask.default,
   RknpuTask.default]

/-- A single-core PC submission with 10 tasks. -/
def c3Args : RknpuSubmit :=
  { flags := RKNPU_JOB_PC, timeout := 1000, task_start := 0, task_number := 10
    task_counter := 0, core_mask := 1
    subcore_task := [⟨0, 10⟩, ⟨0, 0⟩, ⟨0, 0⟩, ⟨0, 0⟩, ⟨0, 0⟩]
    task_obj := some c3Tasks }

/-- A device with batch limit 4 whose core 0 is running the 10-task job
(after the initial commit), as in the spec's 10-task scenario. -/
def c3Dev : RknpuDevice :=
  { config := { rk3588_rknpu_config with max_submit_number := 4 }
    subcore_datas := [⟨[], some 0, 10⟩, RknpuSubcoreData.null,
      RknpuSubcoreData.null]
    soft_reseting := false
    jobs := [rknpu_job_alloc c3Args] }

/-- Witness for job_batch_rounds at the concrete 10-task, batch-4
scenario: 3 rounds of sizes 4, 4, 2. -/
theorem job_batch_rounds_witness :
    ((∀ (job : RknpuJob) (k : Int), job.use_core_num = 1 →
      job.args.subcore_task.getD 0 ⟨0, 0⟩ = ⟨0, 10⟩ →
      job.args.task_obj = some c3Tasks →
      job.submit_count.getD 0 0 = k →
      (rknpu_job_subcore_commit_pc c3Dev.config job 0).2 =
        [Event.commitCore 0 (0 + k * c3Dev.config.max_submit_number)
          (min c3Dev.config.max_submit_number
            (10 - k * c3Dev.config.max_submit_number))]) ∧
    (jobDoneTimes ((10 + c3Dev.config.max_submit_number - 1) /
        c3Dev.config.max_submit_number).toNat c3Dev 0 0).2 =
      ((List.range (((10 + c3Dev.config.max_submit_number - 1) /
          c3Dev.config.max_submit_number).toNat - 1)).map (fun (i : Nat) =>
        Event.commitCore 0
          (0 + (0 + 1 + (i : Int)) * c3Dev.config.max_submit_number)
          (min c3Dev.config.max_submit_number
            (10 - (0 + 1 + (i : Int)) * c3Dev.config.max_submit_number)))) ++
        [Event.wake 0] ∧
    1 + ((jobDoneTimes ((10 + c3Dev.config.max_submit_number - 1) /
        c3Dev.config.max_submit_number).toNat c3Dev 0 0).2.filter
          Event.isCommit).length =
      ((10 + c3Dev.config.max_submit_number - 1) /
        c3Dev.config.max_submit_number).toNat ∧
    ((jobDoneTimes ((10 + c3Dev.config.max_submit_number - 1) /
        c3Dev.config.max_submit_number).toNat c3Dev 0 0).1.jobs.getD 0
      RknpuJob.null).flags &&& RKNPU_JOB_DONE ≠ 0 ∧
    ((jobDoneTimes ((10 + c3Dev.config.max_submit_number - 1) /
        c3Dev.config.max_submit_number).toNat c3Dev 0 0).1.jobs.getD 0
      RknpuJob.null).interrupt_count = 0) ∧
    (jobDoneTimes 3 c3Dev 0 0).2 =
      [Event.commitCore 0 4 4, Event.commitCore 0 8 2, Event.wake 0] ∧
    (rknpu_job_subcore_commit_pc c3Dev.config
      (c3Dev.jobs.getD 0 RknpuJob.null) 0).2 = [Event.commitCore 0 0 4] :=
  ⟨job_batch_rounds c3Dev 0 0 0 10 c3Tasks rfl (by decide) (by decide) rfl (by decide)
    (by decide) (by decide) rfl (by decide) (by decide) (by decide)
    (by decide) (by decide) (by decide) (by decide) (by decide),
   by decide, by decide⟩

/-- rknpu_job_done on a core whose batches are exhausted, when the
cross-core interrupt counter is exactly 1: the decrement observes zero,
so the job is marked RKNPU_JOB_DONE, the result is recorded, and one
wake is issued — to queue 0 for multi-core jobs, else to the core's own
queue. -/
theorem job_done_fire (dev : RknpuDevice) (jid c : Nat) (ret : Int)
    (hsr : dev.soft_reseting = false)
    (hjid : jid < dev.jobs.length)
    (hcl : c < dev.subcore_datas.length)
    (htodo : (dev.subcore_datas.getD c RknpuSubcoreData.null).todo_list = [])
    (hasync : (dev.jobs.getD jid RknpuJob.null).flags &&& RKNPU_JOB_ASYNC = 0)
    (hic : (dev.jobs.getD jid RknpuJob.null).interrupt_count = 1)
    (hexh : ¬ ((dev.jobs.getD jid RknpuJob.null).submit_count.getD c 0 + 1 <
      (rknpu_get_task_number dev.config (dev.jobs.getD jid RknpuJob.null)
          (c : Int) + dev.config.max_submit_number - 1) /
        dev.config.max_submit_number)) :
    (rknpu_job_done dev jid ret c).2 =
      [Event.wake
        (if 1 < (dev.jobs.getD jid RknpuJob.null).use_core_num then 0
         else c)] ∧
    ((rknpu_job_done dev jid ret c).1.jobs.getD jid RknpuJob.null).flags =
      (dev.jobs.getD jid RknpuJob.null).flags ||| RKNPU_JOB_DONE ∧
    ((rknpu_job_done dev jid ret c).1.jobs.getD jid
      RknpuJob.null).interrupt_count = 0 ∧
    ((rknpu_job_done dev jid ret c).1.jobs.getD jid RknpuJob.null).ret =
      ret ∧
    ((rknpu_job_done dev jid ret c).1.jobs.getD jid RknpuJob.null).args =
      (dev.jobs.getD jid RknpuJob.null).args ∧
    ((rknpu_job_done dev jid ret c).1.jobs.getD jid
      RknpuJob.null).use_core_num =
      (dev.jobs.getD jid RknpuJob.null).use_core_num ∧
    ((rknpu_job_done dev jid ret c).1.jobs.getD jid
      RknpuJob.null).submit_count =
      (dev.jobs.getD jid RknpuJob.null).submit_count.set c
        ((dev.jobs.getD jid RknpuJob.null).submit_count.getD c 0 + 1) ∧
    (∀ c2, ((rknpu_job_done dev jid ret c).1.subcore_datas.getD c2
        RknpuSubcoreData.null).todo_list =
      (dev.subcore_datas.getD c2 RknpuSubcoreData.null).todo_list) ∧
    (rknpu_job_done dev jid ret c).1.config = dev.config ∧
    (rknpu_job_done dev jid ret c).1.soft_reseting = dev.soft_reseting ∧
    (rknpu_job_done dev jid ret c).1.jobs.length = dev.jobs.length ∧
    (rknpu_job_done dev jid ret c).1.subcore_datas.length =
      dev.subcore_datas.length := by
  have hA : ((dev.jobs.getD jid RknpuJob.null).flags ||| RKNPU_JOB_DONE) &&&
      RKNPU_JOB_ASYNC = 0 := by
    have h2 := or_one_and_two_eq_zero
      (dev.jobs.getD jid RknpuJob.null).flags
      (by simpa [RKNPU_JOB_ASYNC] using hasync)
    simpa [RKNPU_JOB_DONE, RKNPU_JOB_ASYNC] using h2
  have hsub_set : ∀ sd : RknpuSubcoreData,
      (dev.subcore_datas.set c sd)[c]?.getD RknpuSubcoreData.null = sd := by
    intro sd
    rw [← List.getD_eq_getElem?_getD]
    exact getD_set_self _ _ _ _ hcl
  have hjobs_set : ∀ a : RknpuJob,
      (dev.jobs.set jid a)[jid]?.getD RknpuJob.null = a := by
    intro a
    rw [← List.getD_eq_getElem?_getD]
    exact getD_set_self _ _ _ _ hjid
  simp only [rknpu_job_done]
  split
  · next hcond => exact absurd hcond hexh
  · next hcond =>
      have hsub_other : ∀ (sd : RknpuSubcoreData) (c2 : Nat), c ≠ c2 →
          (dev.subcore_datas.set c sd)[c2]?.getD RknpuSubcoreData.null =
            dev.subcore_datas[c2]?.getD RknpuSubcoreData.null := by
        intro sd c2 hne
        rw [← List.getD_eq_getElem?_getD, ← List.getD_eq_getElem?_getD]
        exact getD_set_other _ _ _ _ _ hne
      simp only [List.getD_eq_getElem?_getD] at hic htodo hA ⊢
      refine ⟨?_, ?_, ?_, ?_, ?_, ?_, ?_, ?_, ?_, ?_, ?_, ?_⟩
      case refine_8 =>
        intro c2
        rcases eq_or_ne c2 c with rfl | hne
        · simp [rknpu_job_next, hsr, hsub_set, htodo, hic, hA]
        · simp [rknpu_job_next, hsr, hsub_set, htodo, hic, hA,
            hsub_other _ _ (Ne.symm hne)]
      all_goals
        simp [rknpu_job_next, hsr, hsub_set, hjobs_set, htodo, hic, hA]

/-- rknpu_job_done on a core whose batches are exhausted, when the
cross-core interrupt counter is not 1: the counter is decremented but
the done branch is not taken — no wake, no flag change, no result
recorded. -/
theorem job_done_nofire (dev : RknpuDevice) (jid c : Nat) (ret : Int)
    (hsr : dev.soft_reseting = false)
    (hjid : jid < dev.jobs.length)
    (hcl : c < dev.subcore_datas.length)
    (htodo : (dev.subcore_datas.getD c RknpuSubcoreData.null).todo_list = [])
    (hic : (dev.jobs.getD jid RknpuJob.null).interrupt_count ≠ 1)
    (hexh : ¬ ((dev.jobs.getD jid RknpuJob.null).submit_count.getD c 0 + 1 <
      (rknpu_get_task_number dev.config (dev.jobs.getD jid RknpuJob.null)
          (c : Int) + dev.config.max_submit_number - 1) /
        dev.config.max_submit_number)) :
    (rknpu_job_done dev jid ret c).2 = [] ∧
    ((rknpu_job_done dev jid ret c).1.jobs.getD jid RknpuJob.null).flags =
      (dev.jobs.getD jid RknpuJob.null).flags ∧
    ((rknpu_job_done dev jid ret c).1.jobs.getD jid
      RknpuJob.null).interrupt_count =
      (dev.jobs.getD jid RknpuJob.null).interrupt_count - 1 ∧
    ((rknpu_job_done dev jid ret c).1.jobs.getD jid RknpuJob.null).ret =
      (dev.jobs.getD jid RknpuJob.null).ret ∧
    ((rknpu_job_done dev jid ret c).1.jobs.getD jid RknpuJob.null).args =
      (dev.jobs.getD jid RknpuJob.null).args ∧
    ((rknpu_job_done dev jid ret c).1.jobs.getD jid
      RknpuJob.null).use_core_num =
      (dev.jobs.getD jid RknpuJob.null).use_core_num ∧
    ((rknpu_job_done dev jid ret c).1.jobs.getD jid
      RknpuJob.null).submit_count =
      (dev.jobs.getD jid RknpuJob.null).submit_count.set c
        ((dev.jobs.getD jid RknpuJob.null).submit_count.getD c 0 + 1) ∧
    (∀ c2, ((rknpu_job_done dev jid ret c).1.subcore_datas.getD c2
        RknpuSubcoreData.null).todo_list =
      (dev.subcore_datas.getD c2 RknpuSubcoreData.null).todo_list) ∧
    (rknpu_job_done dev jid ret c).1.config = dev.config ∧
    (rknpu_job_done dev jid ret c).1.soft_reseting = dev.soft_reseting ∧
    (rknpu_job_done dev jid ret c).1.jobs.length = dev.jobs.length ∧
    (rknpu_job_done dev jid ret c).1.subcore_datas.length =
      dev.subcore_datas.length := by
  have hsub_set : ∀ sd : RknpuSubcoreData,
      (dev.subcore_datas.set c sd)[c]?.getD RknpuSubcoreData.null = sd := by
    intro sd
    rw [← List.getD_eq_getElem?_getD]
    exact getD_set_self _ _ _ _ hcl
  have hjobs_set : ∀ a : RknpuJob,
      (dev.jobs.set jid a)[jid]?.getD RknpuJob.null = a := by
    intro a
    rw [← List.getD_eq_getElem?_getD]
    exact getD_set_self _ _ _ _ hjid
  simp only [rknpu_job_done]
  split
  · next hcond => exact absurd hcond hexh
  · next hcond =>
      have hsub_other : ∀ (sd : RknpuSubcoreData) (c2 : Nat), c ≠ c2 →
          (dev.subcore_datas.set c sd)[c2]?.getD RknpuSubcoreData.null =
            dev.subcore_datas[c2]?.getD RknpuSubcoreData.null := by
        intro sd c2 hne
        rw [← List.getD_eq_getElem?_getD, ← List.getD_eq_getElem?_getD]
        exact getD_set_other _ _ _ _ _ hne
      have hic2 : ¬ ((dev.jobs[jid]?.getD RknpuJob.null).interrupt_count - 1
          = 0) := by
        simp only [List.getD_eq_getElem?_getD] at hic
        omega
      simp only [List.getD_eq_getElem?_getD] at htodo ⊢
      refine ⟨?_, ?_, ?_, ?_, ?_, ?_, ?_, ?_, ?_, ?_, ?_, ?_⟩
      case refine_8 =>
        intro c2
        rcases eq_or_ne c2 c with rfl | hne
        · simp [rknpu_job_next, hsr, hsub_set, htodo, hic2]
        · simp [rknpu_job_next, hsr, hsub_set, htodo, hic2,
            hsub_other _ _ (Ne.symm hne)]
      all_goals
        simp [rknpu_job_next, hsr, hsub_set, hjobs_set, htodo, hic2]

/-- rknpu_get_task_number depends only on the job's args and core
count. -/
theorem get_task_number_congr (cfg : RknpuConfig) (j1 j2 : RknpuJob)
    (ci : Int) (hargs : j1.args = j2.args)
    (huse : j1.use_core_num = j2.use_core_num) :
    rknpu_get_task_number cfg j1 ci = rknpu_get_task_number cfg j2 ci := by
  simp only [rknpu_get_task_number, hargs, huse]

/-- Incrementing one entry of a list leaves every read the same or one
larger. -/
theorem getD_set_incr (l : List Int) (c c2 : Nat) :
    (l.set c (l.getD c 0 + 1)).getD c2 0 = l.getD c2 0 ∨
    (l.set c (l.getD c 0 + 1)).getD c2 0 = l.getD c2 0 + 1 := by
  rcases eq_or_ne c c2 with rfl | hne
  · rcases Nat.lt_or_ge c l.length with h | h
    · right; rw [getD_set_self _ _ _ _ h]
    · left
      rw [List.set_eq_of_length_le h]
  · left; exact getD_set_other _ _ _ _ _ hne



/-- Any sequence of final per-core completions decrements the interrupt
counter once per completion, flips the job to done exactly when the
counter crosses zero, wakes exactly once over the whole sequence (and
never if the job was already done), and always wakes queue 0 for
multi-core jobs. -/
theorem jobDoneSeq_trace (cores : List Nat) (dev : RknpuDevice) (jid : Nat)
    (ret : Int) (f0 u : Nat) (n0 : Int)
    (hsr : dev.soft_reseting = false)
    (hjid : jid < dev.jobs.length)
    (hclen : ∀ c ∈ cores, c < dev.subcore_datas.length)
    (htodo : ∀ c ∈ cores,
      (dev.subcore_datas.getD c RknpuSubcoreData.null).todo_list = [])
    (hexh : ∀ c ∈ cores,
      ¬ ((dev.jobs.getD jid RknpuJob.null).submit_count.getD c 0 + 1 <
        (rknpu_get_task_number dev.config (dev.jobs.getD jid RknpuJob.null)
            (c : Int) + dev.config.max_submit_number - 1) /
          dev.config.max_submit_number))
    (hn0 : (dev.jobs.getD jid RknpuJob.null).interrupt_count = n0)
    (huse : (dev.jobs.getD jid RknpuJob.null).use_core_num = u)
    (hf0d : f0 &&& RKNPU_JOB_DONE = 0)
    (hf0a : f0 &&& RKNPU_JOB_ASYNC = 0)
    (hinv : ((dev.jobs.getD jid RknpuJob.null).flags = f0 ∧ 0 < n0) ∨
      ((dev.jobs.getD jid RknpuJob.null).flags = f0 ||| RKNPU_JOB_DONE ∧
        n0 ≤ 0 ∧ (dev.jobs.getD jid RknpuJob.null).ret = ret)) :
    ((jobDoneSeq cores dev jid ret).1.jobs.getD jid
      RknpuJob.null).interrupt_count = n0 - cores.length ∧
    ((((jobDoneSeq cores dev jid ret).1.jobs.getD jid
        RknpuJob.null).flags = f0 ∧ 0 < n0 - (cores.length : Int)) ∨
      (((jobDoneSeq cores dev jid ret).1.jobs.getD jid
          RknpuJob.null).flags = f0 ||| RKNPU_JOB_DONE ∧
        n0 - (cores.length : Int) ≤ 0 ∧
        ((jobDoneSeq cores dev jid ret).1.jobs.getD jid
          RknpuJob.null).ret = ret)) ∧
    (((jobDoneSeq cores dev jid ret).2.filter Event.isWake).length =
      if 0 < n0 ∧ n0 ≤ (cores.length : Int) then 1 else 0) ∧
    (∀ q, Event.wake q ∈ (jobDoneSeq cores dev jid ret).2 → 1 < u →
      q = 0) := by
  induction cores generalizing dev n0 with
  | nil =>
    have hno : ¬ (0 < n0 ∧ n0 ≤ ((0 : Nat) : Int)) := by
      rcases hinv with ⟨_, h⟩ | ⟨_, h, _⟩ <;> push_cast <;> omega
    refine ⟨by simpa using hn0, by simpa [jobDoneSeq] using hinv, ?_,
      by simp [jobDoneSeq]⟩
    simp only [jobDoneSeq, List.filter_nil, List.length_nil, List.length]
    rw [if_neg (by push_cast; omega)]
  | cons c cs ih =>
    have hc_len : c < dev.subcore_datas.length := hclen c (by simp)
    have hc_todo :
        (dev.subcore_datas.getD c RknpuSubcoreData.null).todo_list = [] :=
      htodo c (by simp)
    have hc_exh := hexh c (by simp)
    have hfire_or : (dev.jobs.getD jid RknpuJob.null).interrupt_count = 1 ∨
        (dev.jobs.getD jid RknpuJob.null).interrupt_count ≠ 1 :=
      em _ |>.imp id id
    -- facts about the one-step result, in either case
    rcases eq_or_ne n0 1 with rfl | hne1
    case inl =>
      rcases hinv with ⟨hfl, _⟩ | ⟨_, hneg, _⟩
      · -- firing completion
        have hfire := job_done_fire dev jid c ret hsr hjid hc_len hc_todo
          (by rw [hfl]; exact hf0a) hn0 hc_exh
        obtain ⟨hev, hflags2, hic2, hret2, hargs2, huse2, hsub2, htodo2,
          hcfg2, hsr2, hjlen2, hslen2⟩ := hfire
        have IH := ih (rknpu_job_done dev jid ret c).1 0
          (by rw [hsr2]; exact hsr)
          (by rw [hjlen2]; exact hjid)
          (fun c2 hc2 => by rw [hslen2]; exact hclen c2 (by simp [hc2]))
          (fun c2 hc2 => by rw [htodo2]; exact htodo c2 (by simp [hc2]))
          (fun c2 hc2 => by
            rw [hcfg2, hsub2,
              get_task_number_congr dev.config _
                (dev.jobs.getD jid RknpuJob.null) _ hargs2 huse2]
            have hold := hexh c2 (by simp [hc2])
            rcases getD_set_incr (dev.jobs.getD jid RknpuJob.null).submit_count
              c c2 with h | h <;> rw [h] <;> omega)
          hic2
          (by rw [huse2]; exact huse)
          (Or.inr ⟨by rw [hflags2, hfl], by omega, hret2⟩)
        obtain ⟨IH1, IH2, IH3, IH4⟩ := IH
        simp only [jobDoneSeq]
        refine ⟨?_, ?_, ?_, ?_⟩
        · rw [IH1]; push_cast [List.length_cons]; ring
        · rcases IH2 with ⟨hf, hpos⟩ | ⟨hf, hle, hr⟩
          · exfalso; push_cast at hpos; omega
          · exact Or.inr ⟨hf, by push_cast [List.length_cons]; omega, hr⟩
        · rw [hev]
          simp only [List.filter_append, List.length_append]
          rw [IH3]
          have h1 : (List.filter Event.isWake
              [Event.wake (if 1 <
                (dev.jobs.getD jid RknpuJob.null).use_core_num then 0
                else c)]).length = 1 := by
            simp [Event.isWake]
          have hcond1 : ¬ ((0 : Int) < 0 ∧ (0 : Int) ≤ (cs.length : Int)) :=
            fun h => absurd h.1 (lt_irrefl 0)
          have hcond2 : (0 : Int) < 1 ∧
              (1 : Int) ≤ (((c :: cs).length : Nat) : Int) := by
            refine ⟨by norm_num, ?_⟩
            push_cast [List.length_cons]
            omega
          rw [h1, if_neg hcond1, if_pos hcond2]
        · intro q hq hu1
          rw [hev] at hq
          rcases List.mem_append.mp hq with hq | hq
          · simp only [List.mem_singleton] at hq
            rw [huse] at hq
            rw [if_pos hu1] at hq
            injection hq
          · exact IH4 q hq hu1
      · exfalso; omega
    case inr =>
      -- non-firing completion (count not 1)
      have hicne : (dev.jobs.getD jid RknpuJob.null).interrupt_count ≠ 1 := by
        rw [hn0]; exact hne1
      have hnf := job_done_nofire dev jid c ret hsr hjid hc_len hc_todo
        hicne hc_exh
      obtain ⟨hev, hflags2, hic2, hret2, hargs2, huse2, hsub2, htodo2,
        hcfg2, hsr2, hjlen2, hslen2⟩ := hnf
      have hinv2 : (((rknpu_job_done dev jid ret c).1.jobs.getD jid
            RknpuJob.null).flags = f0 ∧ 0 < n0 - 1) ∨
          (((rknpu_job_done dev jid ret c).1.jobs.getD jid
              RknpuJob.null).flags = f0 ||| RKNPU_JOB_DONE ∧ n0 - 1 ≤ 0 ∧
            ((rknpu_job_done dev jid ret c).1.jobs.getD jid
              RknpuJob.null).ret = ret) := by
        rcases hinv with ⟨hfl, hpos⟩ | ⟨hfl, hneg, hr⟩
        · exact Or.inl ⟨by rw [hflags2, hfl], by omega⟩
        · exact Or.inr ⟨by rw [hflags2, hfl], by omega, by rw [hret2, hr]⟩
      have IH := ih (rknpu_job_done dev jid ret c).1 (n0 - 1)
        (by rw [hsr2]; exact hsr)
        (by rw [hjlen2]; exact hjid)
        (fun c2 hc2 => by rw [hslen2]; exact hclen c2 (by simp [hc2]))
        (fun c2 hc2 => by rw [htodo2]; exact htodo c2 (by simp [hc2]))
        (fun c2 hc2 => by
          rw [hcfg2, hsub2,
            get_task_number_congr dev.config _
              (dev.jobs.getD jid RknpuJob.null) _ hargs2 huse2]
          have hold := hexh c2 (by simp [hc2])
          rcases getD_set_incr (dev.jobs.getD jid RknpuJob.null).submit_count
            c c2 with h | h <;> rw [h] <;> omega)
        (by rw [hic2, hn0])
        (by rw [huse2]; exact huse)
        hinv2
      obtain ⟨IH1, IH2, IH3, IH4⟩ := IH
      simp only [jobDoneSeq]
      refine ⟨?_, ?_, ?_, ?_⟩
      · rw [IH1]; push_cast [List.length_cons]; ring
      · rcases IH2 with ⟨hf, hpos⟩ | ⟨hf, hle, hr⟩
        · exact Or.inl ⟨hf, by push_cast [List.length_cons] at hpos ⊢; omega⟩
        · exact Or.inr ⟨hf, by push_cast [List.length_cons] at hle ⊢; omega,
            hr⟩
      · rw [hev]
        simp only [List.nil_append]
        rw [IH3]
        have hiff : (0 < n0 - 1 ∧ n0 - 1 ≤ ((cs.length : Nat) : Int)) ↔
            (0 < n0 ∧ n0 ≤ (((c :: cs).length : Nat) : Int)) := by
          push_cast [List.length_cons]
          constructor <;> intro h <;> omega
        rcases em (0 < n0 - 1 ∧ n0 - 1 ≤ ((cs.length : Nat) : Int)) with
          h | h
        · rw [if_pos h, if_pos (hiff.mp h)]
        · rw [if_neg h, if_neg (fun hx => h (hiff.mpr hx))]
      · intro q hq hu1
        rw [hev] at hq
        simp only [List.nil_append] at hq
        exact IH4 q hq hu1



/-- C1: the interrupt-participation counter starts at the number of
participating cores (rknpu_job_alloc conjunct) and, over any sequence of
per-core final completions — including duplicate or spurious ones —
after i completions the counter is n - i; the RKNPU_JOB_DONE flag is set
exactly from the n-th completion onwards, exactly one wake is ever
issued (none again after the job is done), the result is recorded when
the flag is set, and multi-core jobs are woken through core 0's shared
queue. -/
theorem job_interrupt_exactly_once (cores : List Nat) (dev : RknpuDevice)
    (jid : Nat) (ret : Int)
    (hsr : dev.soft_reseting = false)
    (hjid : jid < dev.jobs.length)
    (hclen : ∀ c ∈ cores, c < dev.subcore_datas.length)
    (htodo : ∀ c ∈ cores,
      (dev.subcore_datas.getD c RknpuSubcoreData.null).todo_list = [])
    (hexh : ∀ c ∈ cores,
      ¬ ((dev.jobs.getD jid RknpuJob.null).submit_count.getD c 0 + 1 <
        (rknpu_get_task_number dev.config (dev.jobs.getD jid RknpuJob.null)
            (c : Int) + dev.config.max_submit_number - 1) /
          dev.config.max_submit_number))
    (hn : (dev.jobs.getD jid RknpuJob.null).interrupt_count =
      ((dev.jobs.getD jid RknpuJob.null).use_core_num : Int))
    (hn1 : 1 ≤ (dev.jobs.getD jid RknpuJob.null).use_core_num)
    (hdone0 : (dev.jobs.getD jid RknpuJob.null).flags &&&
      RKNPU_JOB_DONE = 0)
    (hasync0 : (dev.jobs.getD jid RknpuJob.null).flags &&&
      RKNPU_JOB_ASYNC = 0) :
    (∀ a : RknpuSubmit, (rknpu_job_alloc a).interrupt_count =
      ((rknpu_job_alloc a).use_core_num : Int)) ∧
    ∀ i, i ≤ cores.length →
      (((jobDoneSeq (cores.take i) dev jid ret).1.jobs.getD jid
          RknpuJob.null).interrupt_count =
        ((dev.jobs.getD jid RknpuJob.null).use_core_num : Int) - i) ∧
      ((((jobDoneSeq (cores.take i) dev jid ret).1.jobs.getD jid
          RknpuJob.null).flags &&& RKNPU_JOB_DONE ≠ 0) ↔
        (dev.jobs.getD jid RknpuJob.null).use_core_num ≤ i) ∧
      (((jobDoneSeq (cores.take i) dev jid ret).2.filter
          Event.isWake).length =
        if (dev.jobs.getD jid RknpuJob.null).use_core_num ≤ i then 1
        else 0) ∧
      ((dev.jobs.getD jid RknpuJob.null).use_core_num ≤ i →
        ((jobDoneSeq (cores.take i) dev jid ret).1.jobs.getD jid
          RknpuJob.null).ret = ret) ∧
      (∀ q, Event.wake q ∈ (jobDoneSeq (cores.take i) dev jid ret).2 →
        1 < (dev.jobs.getD jid RknpuJob.null).use_core_num → q = 0) := by
  refine ⟨fun a => rfl, ?_⟩
  intro i hi
  have htake : (cores.take i).length = i := by
    rw [List.length_take]
    exact Nat.min_eq_left hi
  have htr := jobDoneSeq_trace (cores.take i) dev jid ret
    (dev.jobs.getD jid RknpuJob.null).flags
    (dev.jobs.getD jid RknpuJob.null).use_core_num
    ((dev.jobs.getD jid RknpuJob.null).use_core_num : Int)
    hsr hjid
    (fun c hc => hclen c (List.take_subset i cores hc))
    (fun c hc => htodo c (List.take_subset i cores hc))
    (fun c hc => hexh c (List.take_subset i cores hc))
    hn rfl hdone0 hasync0
    (Or.inl ⟨rfl, by push_cast; omega⟩)
  obtain ⟨T1, T2, T3, T4⟩ := htr
  rw [htake] at T1 T2 T3
  have hdone_or : ((dev.jobs.getD jid RknpuJob.null).flags |||
      RKNPU_JOB_DONE) &&& RKNPU_JOB_DONE = 1 := by
    simp only [RKNPU_JOB_DONE]
    exact or_one_and_one _
  refine ⟨T1, ?_, ?_, ?_, T4⟩
  · rcases T2 with ⟨hf, hpos⟩ | ⟨hf, hle, _⟩
    · rw [hf]
      constructor
      · intro hcon
        exact absurd hdone0 hcon
      · intro hle2
        exfalso
        push_cast at hpos
        omega
    · rw [hf, hdone_or]
      constructor
      · intro _
        push_cast at hle
        omega
      · intro _
        omega
  · rw [T3]
    rcases em ((dev.jobs.getD jid RknpuJob.null).use_core_num ≤ i) with
      h | h
    · rw [if_pos ?c1, if_pos h]
      case c1 =>
        refine ⟨by push_cast; omega, by push_cast; omega⟩
    · rw [if_neg ?c2, if_neg h]
      case c2 =>
        intro hcon
        push_cast at hcon
        omega
  · intro hle
    rcases T2 with ⟨_, hpos⟩ | ⟨_, _, hr⟩
    · exfalso
      push_cast at hpos
      omega
    · exact hr



/-- A two-core submission used by the exactly-once witness. -/
def c1Args : RknpuSubmit :=
  { flags := RKNPU_JOB_PC, timeout := 1000, task_start := 0, task_number := 6
    task_counter := 0, core_mask := 3
    subcore_task := [⟨0, 3⟩, ⟨3, 3⟩, ⟨0, 0⟩, ⟨0, 0⟩, ⟨0, 0⟩]
    task_obj := some c9Tasks }

/-- A device with the two-core job of c1Args running on cores 0 and 1. -/
def c1Dev : RknpuDevice :=
  { config := rk3588_rknpu_config
    subcore_datas := [⟨[], some 0, 3⟩, ⟨[], some 0, 3⟩, RknpuSubcoreData.null]
    soft_reseting := false
    jobs := [rknpu_job_alloc c1Args] }

/-- Witness for job_interrupt_exactly_once: completions on cores 0 and 1
followed by a spurious duplicate completion on core 0. -/
theorem job_interrupt_exactly_once_witness :
    (∀ a : RknpuSubmit, (rknpu_job_alloc a).interrupt_count =
      ((rknpu_job_alloc a).use_core_num : Int)) ∧
    ∀ i, i ≤ ([0, 1, 0] : List Nat).length →
      (((jobDoneSeq (([0, 1, 0] : List Nat).take i) c1Dev 0 0).1.jobs.getD 0
          RknpuJob.null).interrupt_count =
        ((c1Dev.jobs.getD 0 RknpuJob.null).use_core_num : Int) - i) ∧
      ((((jobDoneSeq (([0, 1, 0] : List Nat).take i) c1Dev 0 0).1.jobs.getD 0
          RknpuJob.null).flags &&& RKNPU_JOB_DONE ≠ 0) ↔
        (c1Dev.jobs.getD 0 RknpuJob.null).use_core_num ≤ i) ∧
      (((jobDoneSeq (([0, 1, 0] : List Nat).take i) c1Dev 0 0).2.filter
          Event.isWake).length =
        if (c1Dev.jobs.getD 0 RknpuJob.null).use_core_num ≤ i then 1
        else 0) ∧
      ((c1Dev.jobs.getD 0 RknpuJob.null).use_core_num ≤ i →
        ((jobDoneSeq (([0, 1, 0] : List Nat).take i) c1Dev 0 0).1.jobs.getD 0
          RknpuJob.null).ret = 0) ∧
      (∀ q, Event.wake q ∈
          (jobDoneSeq (([0, 1, 0] : List Nat).take i) c1Dev 0 0).2 →
        1 < (c1Dev.jobs.getD 0 RknpuJob.null).use_core_num → q = 0) :=
  job_interrupt_exactly_once [0, 1, 0] c1Dev 0 0 rfl (by decide)
    (by decide) (by decide) (by decide) (by decide) (by decide) (by decide)
    (by decide)

end RKNPU

namespace RKNPU

/-- A PC-mode subcore commit emits exactly one commit event, targeted at
that core, and leaves the job's args and run counter unchanged. -/
theorem subcore_commit_targets (cfg : RknpuConfig) (job : RknpuJob)
    (c : Nat) (mem : List RknpuTask)
    (hobj : job.args.task_obj = some mem)
    (hpc : job.args.flags &&& RKNPU_JOB_PC ≠ 0) :
    (rknpu_job_subcore_commit cfg job c).2.filterMap Event.commitTarget =
      [c] ∧
    (rknpu_job_subcore_commit cfg job c).1.args = job.args ∧
    (rknpu_job_subcore_commit cfg job c).1.run_count = job.run_count := by
  rw [subcore_commit_of_pc _ _ _ hpc]
  simp [rknpu_job_subcore_commit_pc, hobj, Event.commitTarget]

/-- For the handled multi-core masks 0x3 and 0x7, rknpu_job_commit emits
commit events for exactly the participating cores. -/
theorem commit_targets (cfg : RknpuConfig) (job : RknpuJob)
    (mem : List RknpuTask)
    (hobj : job.args.task_obj = some mem)
    (hpc : job.args.flags &&& RKNPU_JOB_PC ≠ 0)
    (hm : job.args.core_mask = 3 ∨ job.args.core_mask = 7) :
    (rknpu_job_commit cfg job).2.filterMap Event.commitTarget =
      (List.range 3).filter
        (fun i => job.args.core_mask &&& rknpu_core_mask i ≠ 0) := by
  obtain ⟨ht0, ha0, -⟩ := subcore_commit_targets cfg job 0 mem hobj hpc
  have e1 : RKNPU_CORE0_MASK = 1 := rfl
  have e2 : RKNPU_CORE1_MASK = 2 := rfl
  have e4 : RKNPU_CORE2_MASK = 4 := rfl
  have e12 : (RKNPU_CORE0_MASK ||| RKNPU_CORE1_MASK : Nat) = 3 := rfl
  have e124 : (RKNPU_CORE0_MASK ||| RKNPU_CORE1_MASK |||
    RKNPU_CORE2_MASK : Nat) = 7 := rfl
  have n12 : (1 ||| 2 : Nat) = 3 := rfl
  have n124 : (1 ||| 2 ||| 4 : Nat) = 7 := rfl
  have n34 : (3 ||| 4 : Nat) = 7 := rfl
  rcases hm with hm | hm <;>
    rw [rknpu_job_commit] <;>
    simp only [hm, e1, e2, e4, e12, e124, n12, n124, n34] <;>
    norm_num
  · 
    obtain ⟨ht1, ha1, -⟩ := subcore_commit_targets cfg
      (rknpu_job_subcore_commit cfg job 0).1 1 mem
      (by rw [ha0]; exact hobj) (by rw [ha0]; exact hpc)
    rw [ht0, ht1]
    decide
  · 
    obtain ⟨ht1, ha1, -⟩ := subcore_commit_targets cfg
      (rknpu_job_subcore_commit cfg job 0).1 1 mem
      (by rw [ha0]; exact hobj) (by rw [ha0]; exact hpc)
    obtain ⟨ht2, ha2, -⟩ := subcore_commit_targets cfg
      (rknpu_job_subcore_commit cfg
        (rknpu_job_subcore_commit cfg job 0).1 1).1 2 mem
      (by rw [ha1, ha0]; exact hobj) (by rw [ha1, ha0]; exact hpc)
    rw [ht0, ht1, ht2]
    decide

end RKNPU

namespace RKNPU

/-- rknpu_job_next on an idle core with a queued job whose run counter is
not yet 1: the job starts running on the core, the counter is
decremented, and no hardware commit is issued. -/
theorem job_next_pop_nolast (dev : RknpuDevice) (c jid : Nat)
    (tail : List Nat)
    (hsr : dev.soft_reseting = false)
    (hjid : jid < dev.jobs.length)
    (hcl : c < dev.subcore_datas.length)
    (hjob : (dev.subcore_datas.getD c RknpuSubcoreData.null).job = none)
    (htodo : (dev.subcore_datas.getD c RknpuSubcoreData.null).todo_list =
      jid :: tail)
    (hrc : (dev.jobs.getD jid RknpuJob.null).run_count ≠ 1) :
    (rknpu_job_next dev c).2 = [] ∧
    ((rknpu_job_next dev c).1.jobs.getD jid RknpuJob.null).run_count =
      (dev.jobs.getD jid RknpuJob.null).run_count - 1 ∧
    ((rknpu_job_next dev c).1.jobs.getD jid RknpuJob.null).args =
      (dev.jobs.getD jid RknpuJob.null).args ∧
    ((rknpu_job_next dev c).1.subcore_datas.getD c
      RknpuSubcoreData.null).job = some jid ∧
    ((rknpu_job_next dev c).1.subcore_datas.getD c
      RknpuSubcoreData.null).todo_list = tail ∧
    (∀ c2, c2 ≠ c → (rknpu_job_next dev c).1.subcore_datas.getD c2
      RknpuSubcoreData.null = dev.subcore_datas.getD c2
        RknpuSubcoreData.null) ∧
    (rknpu_job_next dev c).1.config = dev.config ∧
    (rknpu_job_next dev c).1.soft_reseting = dev.soft_reseting ∧
    (rknpu_job_next dev c).1.jobs.length = dev.jobs.length ∧
    (rknpu_job_next dev c).1.subcore_datas.length =
      dev.subcore_datas.length := by
  have hsub_set : ∀ sd : RknpuSubcoreData,
      (dev.subcore_datas.set c sd)[c]?.getD RknpuSubcoreData.null = sd := by
    intro sd
    rw [← List.getD_eq_getElem?_getD]
    exact getD_set_self _ _ _ _ hcl
  have hjobs_set : ∀ a : RknpuJob,
      (dev.jobs.set jid a)[jid]?.getD RknpuJob.null = a := by
    intro a
    rw [← List.getD_eq_getElem?_getD]
    exact getD_set_self _ _ _ _ hjid
  have hsub_other : ∀ (sd : RknpuSubcoreData) (c2 : Nat), c ≠ c2 →
      (dev.subcore_datas.set c sd)[c2]?.getD RknpuSubcoreData.null =
        dev.subcore_datas[c2]?.getD RknpuSubcoreData.null := by
    intro sd c2 hne
    rw [← List.getD_eq_getElem?_getD, ← List.getD_eq_getElem?_getD]
    exact getD_set_other _ _ _ _ _ hne
  have hrc2 : ¬ ((dev.jobs[jid]?.getD RknpuJob.null).run_count - 1 = 0) := by
    simp only [List.getD_eq_getElem?_getD] at hrc
    omega
  simp only [rknpu_job_next, hsr]
  simp only [List.getD_eq_getElem?_getD] at hjob htodo ⊢
  rw [hjob, htodo]
  refine ⟨?_, ?_, ?_, ?_, ?_, ?_, ?_, ?_, ?_, ?_⟩
  case refine_6 =>
    intro c2 hne
    simp [hsub_set, hjobs_set, hrc2, hsub_other _ _ (Ne.symm hne)]
  all_goals simp [hsub_set, hjobs_set, hrc2]

/-- rknpu_job_next on an idle core with a queued job whose run counter is
1 (the last participating core to reach it): the job starts running, the
counter drops to zero, and the commit programs exactly the participating
cores (handled masks 0x3/0x7). -/
theorem job_next_pop_last (dev : RknpuDevice) (c jid : Nat)
    (tail : List Nat) (mem : List RknpuTask)
    (hsr : dev.soft_reseting = false)
    (hjid : jid < dev.jobs.length)
    (hcl : c < dev.subcore_datas.length)
    (hjob : (dev.subcore_datas.getD c RknpuSubcoreData.null).job = none)
    (htodo : (dev.subcore_datas.getD c RknpuSubcoreData.null).todo_list =
      jid :: tail)
    (hrc : (dev.jobs.getD jid RknpuJob.null).run_count = 1)
    (hobj : (dev.jobs.getD jid RknpuJob.null).args.task_obj = some mem)
    (hpc : (dev.jobs.getD jid RknpuJob.null).args.flags &&&
      RKNPU_JOB_PC ≠ 0)
    (hm : (dev.jobs.getD jid RknpuJob.null).args.core_mask = 3 ∨
      (dev.jobs.getD jid RknpuJob.null).args.core_mask = 7) :
    (rknpu_job_next dev c).2.filterMap Event.commitTarget =
      (List.range 3).filter
        (fun i => (dev.jobs.getD jid RknpuJob.null).args.core_mask &&&
          rknpu_core_mask i ≠ 0) ∧
    ((rknpu_job_next dev c).1.jobs.getD jid RknpuJob.null).run_count = 0 ∧
    ((rknpu_job_next dev c).1.jobs.getD jid RknpuJob.null).args =
      (dev.jobs.getD jid RknpuJob.null).args ∧
    ((rknpu_job_next dev c).1.subcore_datas.getD c
      RknpuSubcoreData.null).job = some jid ∧
    ((rknpu_job_next dev c).1.subcore_datas.getD c
      RknpuSubcoreData.null).todo_list = tail ∧
    (∀ c2, c2 ≠ c → (rknpu_job_next dev c).1.subcore_datas.getD c2
      RknpuSubcoreData.null = dev.subcore_datas.getD c2
        RknpuSubcoreData.null) ∧
    (rknpu_job_next dev c).1.config = dev.config ∧
    (rknpu_job_next dev c).1.soft_reseting = dev.soft_reseting ∧
    (rknpu_job_next dev c).1.jobs.length = dev.jobs.length ∧
    (rknpu_job_next dev c).1.subcore_datas.length =
      dev.subcore_datas.length := by
  have hcom := commit_targets dev.config
    { dev.jobs.getD jid RknpuJob.null with
      run_count := (dev.jobs.getD jid RknpuJob.null).run_count - 1 }
    mem hobj hpc hm
  have hcargs : ∀ (j2 : RknpuJob) (cfg : RknpuConfig),
      j2.args.task_obj = some mem → j2.args.flags &&& RKNPU_JOB_PC ≠ 0 →
      (rknpu_job_commit cfg j2).1.args = j2.args ∧
      (rknpu_job_commit cfg j2).1.run_count = j2.run_count := by
    intro j2 cfg hobj2 hpc2
    rw [rknpu_job_commit]
    obtain ⟨-, ha0, hr0⟩ := subcore_commit_targets cfg j2 0 mem hobj2 hpc2
    obtain ⟨-, ha1, hr1⟩ := subcore_commit_targets cfg
      (rknpu_job_subcore_commit cfg j2 0).1 1 mem
      (by rw [ha0]; exact hobj2) (by rw [ha0]; exact hpc2)
    obtain ⟨-, ha2, hr2⟩ := subcore_commit_targets cfg
      (rknpu_job_subcore_commit cfg
        (rknpu_job_subcore_commit cfg j2 0).1 1).1 2 mem
      (by rw [ha1, ha0]; exact hobj2) (by rw [ha1, ha0]; exact hpc2)
    obtain ⟨-, hb1, hs1⟩ := subcore_commit_targets cfg j2 1 mem hobj2 hpc2
    obtain ⟨-, hb2, hs2⟩ := subcore_commit_targets cfg j2 2 mem hobj2 hpc2
    split_ifs <;>
      simp_all [ha0, ha1, ha2, hb1, hb2, hr0, hr1, hr2, hs1, hs2]
  have hsub_set : ∀ sd : RknpuSubcoreData,
      (dev.subcore_datas.set c sd)[c]?.getD RknpuSubcoreData.null = sd := by
    intro sd
    rw [← List.getD_eq_getElem?_getD]
    exact getD_set_self _ _ _ _ hcl
  have hjobs_set : ∀ a : RknpuJob,
      (dev.jobs.set jid a)[jid]?.getD RknpuJob.null = a := by
    intro a
    rw [← List.getD_eq_getElem?_getD]
    exact getD_set_self _ _ _ _ hjid
  have hsub_other : ∀ (sd : RknpuSubcoreData) (c2 : Nat), c ≠ c2 →
      (dev.subcore_datas.set c sd)[c2]?.getD RknpuSubcoreData.null =
        dev.subcore_datas[c2]?.getD RknpuSubcoreData.null := by
    intro sd c2 hne
    rw [← List.getD_eq_getElem?_getD, ← List.getD_eq_getElem?_getD]
    exact getD_set_other _ _ _ _ _ hne
  have hrc2 : (dev.jobs[jid]?.getD RknpuJob.null).run_count - 1 = 0 := by
    simp only [List.getD_eq_getElem?_getD] at hrc
    omega
  have harg := hcargs { dev.jobs.getD jid RknpuJob.null with
      run_count := (dev.jobs.getD jid RknpuJob.null).run_count - 1 }
    dev.config hobj hpc
  simp only [rknpu_job_next, hsr]
  simp only [List.getD_eq_getElem?_getD] at hjob htodo hcom harg ⊢
  rw [hjob, htodo]
  rw [hrc2] at hcom harg
  refine ⟨?_, ?_, ?_, ?_, ?_, ?_, ?_, ?_, ?_, ?_⟩
  case refine_6 =>
    intro c2 hne
    simp [hsub_set, hjobs_set, hrc2, hsub_other _ _ (Ne.symm hne)]
  case refine_1 =>
    simp only [hsub_set, hrc2, if_pos rfl]
    simpa using hcom
  case refine_2 =>
    simp only [hsub_set, hrc2, if_pos rfl]
    simp [hjobs_set, harg.2]
  case refine_3 =>
    simp only [hsub_set, hrc2, if_pos rfl]
    simp [hjobs_set, harg.1]
  all_goals simp [hsub_set, hjobs_set, hrc2]

end RKNPU

namespace RKNPU

/-- Invariant for a sequence of per-core queue advances of the same job
over distinct ready cores: each advance decrements the run counter,
no commit is emitted until the counter reaches zero on the last advance,
and then the commit targets exactly the participating cores. -/
theorem jobNextSeq_pops (cores : List Nat) (dev : RknpuDevice)
    (jid d : Nat) (mem : List RknpuTask)
    (hsr : dev.soft_reseting = false)
    (hjid : jid < dev.jobs.length)
    (hnodup : cores.Nodup)
    (hcores : ∀ c ∈ cores, c < dev.subcore_datas.length ∧
      (dev.subcore_datas.getD c RknpuSubcoreData.null).job = none ∧
      (dev.subcore_datas.getD c
        RknpuSubcoreData.null).todo_list.head? = some jid)
    (hrc : (dev.jobs.getD jid RknpuJob.null).run_count = cores.length + d)
    (hobj : (dev.jobs.getD jid RknpuJob.null).args.task_obj = some mem)
    (hpc : (dev.jobs.getD jid RknpuJob.null).args.flags &&&
      RKNPU_JOB_PC ≠ 0)
    (hm : (dev.jobs.getD jid RknpuJob.null).args.core_mask = 3 ∨
      (dev.jobs.getD jid RknpuJob.null).args.core_mask = 7) :
    ((jobNextSeq cores dev).1.jobs.getD jid RknpuJob.null).run_count = d ∧
    (jobNextSeq cores dev).2.filterMap Event.commitTarget =
      (if d = 0 ∧ cores ≠ [] then
        (List.range 3).filter
          (fun i => (dev.jobs.getD jid RknpuJob.null).args.core_mask &&&
            rknpu_core_mask i ≠ 0)
      else []) ∧
    ((jobNextSeq cores dev).1.jobs.getD jid RknpuJob.null).args =
      (dev.jobs.getD jid RknpuJob.null).args ∧
    (∀ c ∈ cores, ((jobNextSeq cores dev).1.subcore_datas.getD c
      RknpuSubcoreData.null).job = some jid) ∧
    (∀ c2, c2 ∉ cores → (jobNextSeq cores dev).1.subcore_datas.getD c2
      RknpuSubcoreData.null = dev.subcore_datas.getD c2
        RknpuSubcoreData.null) ∧
    (jobNextSeq cores dev).1.config = dev.config ∧
    (jobNextSeq cores dev).1.soft_reseting = false ∧
    (jobNextSeq cores dev).1.jobs.length = dev.jobs.length ∧
    (jobNextSeq cores dev).1.subcore_datas.length =
      dev.subcore_datas.length := by
  induction cores generalizing dev with
  | nil =>
    simp only [jobNextSeq]
    refine ⟨by rw [hrc]; simp, by simp, by simp, by simp, by simp,
      by simp, hsr, by simp, by simp⟩
  | cons c cs ih =>
    obtain ⟨hclen, hcjob, hchead⟩ := hcores c (List.mem_cons_self _ _)
    obtain ⟨t, ht⟩ : ∃ t, (dev.subcore_datas.getD c
        RknpuSubcoreData.null).todo_list = jid :: t := by
      cases h2 : (dev.subcore_datas.getD c
          RknpuSubcoreData.null).todo_list with
      | nil => rw [h2] at hchead; simp at hchead
      | cons x xs =>
        rw [h2] at hchead
        simp only [List.head?_cons, Option.some.injEq] at hchead
        exact ⟨xs, by rw [hchead]⟩
    have hcnotin : c ∉ cs := (List.nodup_cons.mp hnodup).1
    have hndcs : cs.Nodup := (List.nodup_cons.mp hnodup).2
    by_cases hlast : cs = [] ∧ d = 0
    · obtain ⟨hcs, hd⟩ := hlast
      subst hcs hd
      have hrc1 : (dev.jobs.getD jid RknpuJob.null).run_count = 1 := by
        simpa using hrc
      rcases hsplit : rknpu_job_next dev c with ⟨d1, e1⟩
      have hpop := job_next_pop_last dev c jid t mem hsr hjid hclen
        hcjob ht hrc1 hobj hpc hm
      rw [hsplit] at hpop
      obtain ⟨hp1, hp2, hp3, hp4, hp5, hp6, hp7, hp8, hp9, hp10⟩ := hpop
      simp only [jobNextSeq, hsplit]
      refine ⟨hp2, ?_, hp3, ?_, ?_, hp7, hp8 ▸ hsr, hp9, hp10⟩
      · simpa using hp1
      · intro c2 hc2
        simp only [List.mem_singleton] at hc2
        subst hc2
        exact hp4
      · intro c2 hc2
        simp only [List.mem_singleton] at hc2
        exact hp6 c2 hc2
    · have hne1 : (dev.jobs.getD jid RknpuJob.null).run_count ≠ 1 := by
        rcases Decidable.not_and_iff_or_not.mp hlast with h | h
        · have : cs ≠ [] := h
          have : 1 ≤ cs.length := List.length_pos.mpr this
          simp only [List.length_cons] at hrc
          omega
        · simp only [List.length_cons] at hrc
          omega
      rcases hsplit : rknpu_job_next dev c with ⟨d1, e1⟩
      have hpop := job_next_pop_nolast dev c jid t hsr hjid hclen
        hcjob ht hne1
      rw [hsplit] at hpop
      dsimp only at hpop
      obtain ⟨hp1, hp2, hp3, hp4, hp5, hp6, hp7, hp8, hp9, hp10⟩ := hpop
      have hsr1 : d1.soft_reseting = false := hp8 ▸ hsr
      have hjid1 : jid < d1.jobs.length := by rw [hp9]; exact hjid
      have hcores1 : ∀ c2 ∈ cs, c2 < d1.subcore_datas.length ∧
          (d1.subcore_datas.getD c2 RknpuSubcoreData.null).job = none ∧
          (d1.subcore_datas.getD c2
            RknpuSubcoreData.null).todo_list.head? = some jid := by
        intro c2 hc2
        have hne : c2 ≠ c := fun h2 => hcnotin (h2 ▸ hc2)
        have heq := hp6 c2 hne
        obtain ⟨hl2, hj2, hh2⟩ := hcores c2 (List.mem_cons_of_mem _ hc2)
        exact ⟨by rw [hp10]; exact hl2, by rw [heq]; exact hj2,
          by rw [heq]; exact hh2⟩
      have hrc2 : (d1.jobs.getD jid RknpuJob.null).run_count =
          cs.length + d := by
        rw [hp2, hrc]
        simp only [List.length_cons]
        omega
      have hobj1 : (d1.jobs.getD jid RknpuJob.null).args.task_obj =
          some mem := by rw [hp3]; exact hobj
      have hpc1 : (d1.jobs.getD jid RknpuJob.null).args.flags &&&
          RKNPU_JOB_PC ≠ 0 := by rw [hp3]; exact hpc
      have hm1 : (d1.jobs.getD jid RknpuJob.null).args.core_mask = 3 ∨
          (d1.jobs.getD jid RknpuJob.null).args.core_mask = 7 := by
        rw [hp3]; exact hm
      have hrec := ih d1 hsr1 hjid1 hndcs hcores1 hrc2 hobj1 hpc1 hm1
      rcases hsplit2 : jobNextSeq cs d1 with ⟨d2, e2⟩
      rw [hsplit2] at hrec
      dsimp only at hrec
      obtain ⟨hq1, hq2, hq3, hq4, hq5, hq6, hq7, hq8, hq9⟩ := hrec
      simp only [jobNextSeq, hsplit, hsplit2]
      refine ⟨hq1, ?_, hq3.trans hp3, ?_, ?_, hq6.trans hp7, hq7,
        hq8.trans hp9, hq9.trans hp10⟩
      · rw [List.filterMap_append, hp1, hq2, hp3]
        by_cases hd : d = 0
        · have hcs : cs ≠ [] := by
            rcases Decidable.not_and_iff_or_not.mp hlast with h | h
            · exact h
            · exact absurd hd h
          simp [hd, hcs]
        · simp [hd]
      · intro c2 hc2
        rcases List.mem_cons.mp hc2 with h2 | h2
        · subst h2
          rw [hq5 c2 hcnotin, hp4]
        · exact hq4 c2 h2
      · intro c2 hc2
        have hnc : c2 ∉ cs := fun h2 => hc2 (List.mem_cons_of_mem _ h2)
        have hnec : c2 ≠ c := fun h2 =>
          hc2 (h2 ▸ List.mem_cons_self _ _)
        rw [hq5 c2 hnc, hp6 c2 hnec]

end RKNPU

namespace RKNPU

/-- A device with the two-core PC job of c1Args (mask 0x3) queued, not yet
running, at the head of cores 0 and 1. -/
def c2Dev : RknpuDevice :=
  { config := rk3588_rknpu_config
    subcore_datas := [⟨[0], none, 0⟩, ⟨[0], none, 0⟩, RknpuSubcoreData.null]
    soft_reseting := false
    jobs := [rknpu_job_alloc c1Args] }

/-- A device with the PC job of c9Args 5 (cores 0+2) queued, not yet
running, at the head of cores 0 and 2. -/
def cx2Dev : RknpuDevice :=
  { config := rk3588_rknpu_config
    subcore_datas := [⟨[0], none, 0⟩, RknpuSubcoreData.null, ⟨[0], none, 0⟩]
    soft_reseting := false
    jobs := [rknpu_job_alloc (c9Args 5)] }

/-- C2 (corrected): for a multi-core job queued at the head of a set of
distinct idle cores, each per-core advance decrements the job's run
counter (initialized to the popcount of the core mask) and issues no
commit; only the advance that brings the counter to zero - i.e. only
after the job has become the running job on every participating core -
issues the commit, which for the handled masks 0x3 and 0x7 programs
exactly the participating cores.  The original claim's final clause
("programs all participating cores") fails for the unhandled two-core
masks 0x5 and 0x6, whose commit dispatch programs no core. -/
theorem multi_core_commit_gated (cores : List Nat) (dev : RknpuDevice)
    (jid d : Nat) (mem : List RknpuTask)
    (hsr : dev.soft_reseting = false)
    (hjid : jid < dev.jobs.length)
    (hnodup : cores.Nodup)
    (hcores : ∀ c ∈ cores, c < dev.subcore_datas.length ∧
      (dev.subcore_datas.getD c RknpuSubcoreData.null).job = none ∧
      (dev.subcore_datas.getD c
        RknpuSubcoreData.null).todo_list.head? = some jid)
    (hrc : (dev.jobs.getD jid RknpuJob.null).run_count = cores.length + d)
    (hobj : (dev.jobs.getD jid RknpuJob.null).args.task_obj = some mem)
    (hpc : (dev.jobs.getD jid RknpuJob.null).args.flags &&&
      RKNPU_JOB_PC ≠ 0)
    (hm : (dev.jobs.getD jid RknpuJob.null).args.core_mask = 3 ∨
      (dev.jobs.getD jid RknpuJob.null).args.core_mask = 7) :
    ((jobNextSeq cores dev).1.jobs.getD jid RknpuJob.null).run_count = d ∧
    (jobNextSeq cores dev).2.filterMap Event.commitTarget =
      (if d = 0 ∧ cores ≠ [] then
        (List.range 3).filter
          (fun i => (dev.jobs.getD jid RknpuJob.null).args.core_mask &&&
            rknpu_core_mask i ≠ 0)
      else []) ∧
    (∀ c ∈ cores, ((jobNextSeq cores dev).1.subcore_datas.getD c
      RknpuSubcoreData.null).job = some jid) := by
  obtain ⟨h1, h2, -, h4, -⟩ :=
    jobNextSeq_pops cores dev jid d mem hsr hjid hnodup hcores hrc
      hobj hpc hm
  exact ⟨h1, h2, h4⟩

/-- Witness: the two-core mask-0x3 job of c2Dev commits exactly on cores
0 and 1 at the second advance, and not at the first. -/
theorem multi_core_commit_gated_witness :
    ((jobNextSeq [0, 1] c2Dev).1.jobs.getD 0 RknpuJob.null).run_count = 0 ∧
    (jobNextSeq [0, 1] c2Dev).2.filterMap Event.commitTarget = [0, 1] ∧
    ((jobNextSeq [0] c2Dev).1.jobs.getD 0 RknpuJob.null).run_count = 1 ∧
    (jobNextSeq [0] c2Dev).2.filterMap Event.commitTarget = [] := by
  obtain ⟨h1, h2, -⟩ := multi_core_commit_gated [0, 1] c2Dev 0 0 c9Tasks
    rfl (by decide) (by decide) (by decide) (by decide) (by decide)
    (by decide) (by decide)
  obtain ⟨h3, h4, -⟩ := multi_core_commit_gated [0] c2Dev 0 1 c9Tasks
    rfl (by decide) (by decide) (by decide) (by decide) (by decide)
    (by decide) (by decide)
  refine ⟨h1, ?_, h3, ?_⟩
  · rw [h2]; decide
  · rw [h4]; decide

/-- Counterexample to the original commit claim: the mask-0x5 job passes
capability validation, its participating cores are 0 and 2, both queue
advances occur (run counter 2 down to 0, job running on both cores), yet
the commit dispatch has no case for mask 0x5 and programs no core at
all. -/
theorem multi_core_commit_unprogrammed_counterexample :
    (c9Args 5).core_mask &&& rk3588_rknpu_config.core_mask =
      (c9Args 5).core_mask ∧
    ((cx2Dev.jobs.getD 0 RknpuJob.null).run_count = 2) ∧
    (List.range 3).filter
      (fun i => (c9Args 5).core_mask &&& rknpu_core_mask i ≠ 0) = [0, 2] ∧
    ((jobNextSeq [0, 2] cx2Dev).1.jobs.getD 0 RknpuJob.null).run_count = 0 ∧
    ((jobNextSeq [0, 2] cx2Dev).1.subcore_datas.getD 0
      RknpuSubcoreData.null).job = some 0 ∧
    ((jobNextSeq [0, 2] cx2Dev).1.subcore_datas.getD 2
      RknpuSubcoreData.null).job = some 0 ∧
    (jobNextSeq [0, 2] cx2Dev).2.filterMap Event.commitTarget = [] := by
  refine ⟨by decide, by decide, by decide, by decide, by decide,
    by decide, by decide⟩

end RKNPU
